import Mathlib

/-!
# Verification development for `pudl/pudl.py`

This file is a shallow embedding of the ingest/transform layer of the PUDL
module (`src/pudl/pudl.py`).  DataFrames are embedded as lists of rows, a row
being an association list from column names to values; pandas column
operations (assignment, drop, rename, filtering, `dropna`, `drop_duplicates`,
outer merge) are embedded as explicit list functions.  Numeric columns are
modelled over `ℚ`; strings are modelled as lists of character codes so that
the Python `str.strip` / `str.title` canonicalization can be reasoned about
arithmetically.

Functions of the repository that are imported by `pudl.py` but whose source
is not part of `src/` (`cleanstrings` from `pudl.ferc1`,
`yearly_to_monthly_eia923` / `get_eia923_page` from `pudl.eia923`, and the
lookup tables of `pudl.constants`) are either modelled from the spec (marked
in their doc comments) or taken as parameters.
-/

namespace Pudl

/-- A cell value of a DataFrame: null (`NaN`/`None`), a string (as a list of
character codes), a rational number (model of ints and floats), or a
boolean. -/
inductive Val where
  | null : Val
  | str : List Nat → Val
  | num : ℚ → Val
  | bool : Bool → Val
deriving DecidableEq, Repr

/-- Character codes of a Lean string literal, for readable concrete values. -/
def codes (s : String) : List Nat :=
  s.data.map Char.toNat

/-- A string value written from a literal. -/
def Val.s (x : String) : Val := Val.str (codes x)

/-- An integer-valued numeric cell. -/
def Val.int (n : ℤ) : Val := Val.num n

/-! ## Python string operations (`str.strip`, `str.title`) on code lists -/

/-- Whitespace character codes recognised by Python `str.strip()`:
space, tab, LF, VT, FF, CR. -/
def isSpaceCode (n : Nat) : Bool :=
  decide (n = 32 ∨ n = 9 ∨ n = 10 ∨ n = 11 ∨ n = 12 ∨ n = 13)

/-- ASCII letter test (model of Python "cased character" for the data at
hand). -/
def isAlphaCode (n : Nat) : Bool :=
  decide ((65 ≤ n ∧ n ≤ 90) ∨ (97 ≤ n ∧ n ≤ 122))

/-- Uppercase an ASCII letter code; other codes unchanged. -/
def upperCode (n : Nat) : Nat :=
  if 97 ≤ n ∧ n ≤ 122 then n - 32 else n

/-- Lowercase an ASCII letter code; other codes unchanged. -/
def lowerCode (n : Nat) : Nat :=
  if 65 ≤ n ∧ n ≤ 90 then n + 32 else n

/-- `str.strip()`: remove leading whitespace, then trailing whitespace. -/
def stripCodes (l : List Nat) : List Nat :=
  List.rdropWhile isSpaceCode (List.dropWhile isSpaceCode l)

/-- One step of Python `str.title()`: the flag records whether the previous
character was a letter; a letter after a non-letter is uppercased, a letter
after a letter is lowercased. -/
def titleAux : Bool → List Nat → List Nat
  | _, [] => []
  | prevAlpha, n :: ns =>
      (if prevAlpha then lowerCode n else upperCode n) :: titleAux (isAlphaCode n) ns

/-- Python `str.title()` on a code list. -/
def titleCodes (l : List Nat) : List Nat :=
  titleAux false l

/-- pandas `Series.str.strip()` on one cell: strings are stripped, everything
else (including null) maps to null. -/
def Val.pyStrip : Val → Val
  | Val.str l => Val.str (stripCodes l)
  | _ => Val.null

/-- pandas `Series.str.title()` on one cell. -/
def Val.pyTitle : Val → Val
  | Val.str l => Val.str (titleCodes l)
  | _ => Val.null

/-! ## Numeric cell operations -/

/-- `k * series` on one cell (numeric columns only). -/
def Val.mulC (k : ℚ) : Val → Val
  | Val.num q => Val.num (k * q)
  | _ => Val.null

/-- `series / k` on one cell (numeric columns only). -/
def Val.divC (k : ℚ) : Val → Val
  | Val.num q => Val.num (q / k)
  | _ => Val.null

/-- Parse an optional-sign decimal integer from a code list
(48–57 are the digit codes). -/
def parseDigits : List Nat → Option ℕ
  | [] => none
  | [n] => if 48 ≤ n ∧ n ≤ 57 then some (n - 48) else none
  | n :: ns =>
      if 48 ≤ n ∧ n ≤ 57 then
        (parseDigits ns).map (fun m => (n - 48) * 10 ^ ns.length + m)
      else none

/-- Numeric parse of a string cell, as used by `pd.to_numeric`:
optional leading minus sign, then decimal digits. -/
def parseNumCodes (l : List Nat) : Option ℚ :=
  match l with
  | 45 :: rest => (parseDigits rest).map (fun m => -(m : ℚ))
  | _ => (parseDigits l).map (fun m => (m : ℚ))

/-- `pd.to_numeric(col, errors='coerce')` on one cell: numbers pass through,
parseable strings become numbers, unparseable strings and nulls become
null. -/
def toNumericCoerce : Val → Val
  | Val.num q => Val.num q
  | Val.str l =>
      match parseNumCodes l with
      | some q => Val.num q
      | none => Val.null
  | Val.bool b => Val.num (if b then 1 else 0)
  | Val.null => Val.null

/-! ## Rows and DataFrames -/

/-- A row: an association list from column names to cell values. -/
abbrev Row : Type := List (String × Val)

/-- First value stored under column `c`, if the column is present. -/
def Row.get : Row → String → Option Val
  | [], _ => none
  | (k, v) :: r, c => if k = c then some v else Row.get r c

/-- Value under column `c`, with missing columns read as null. -/
def Row.getD (r : Row) (c : String) : Val :=
  (r.get c).getD Val.null

/-- Does the row have a column named `c`? -/
def Row.hasCol : Row → String → Bool
  | [], _ => false
  | (k, _) :: r, c => k == c || Row.hasCol r c

/-- pandas column assignment `df[c] = v` at row level: overwrite the column's
occurrences if present, otherwise append it at the end. -/
def Row.set (r : Row) (c : String) (v : Val) : Row :=
  if r.hasCol c then
    List.map (fun p => if p.1 = c then (c, v) else p) r
  else
    r ++ [(c, v)]

/-- pandas `df.drop(c, axis=1)` at row level. -/
def Row.dropC (r : Row) (c : String) : Row :=
  List.filter (fun p => !(p.1 == c)) r

/-- Association-list lookup returning the first match, used by `rename`. -/
def alookup : List (String × String) → String → Option String
  | [], _ => none
  | (k, v) :: m, c => if k = c then some v else alookup m c

/-- pandas `df.rename(columns=m)` at row level: every column name that is a
key of `m` is replaced by its image, other names are unchanged. -/
def Row.rename (m : List (String × String)) (r : Row) : Row :=
  List.map (fun p => ((alookup m p.1).getD p.1, p.2)) r

/-- Is the cell of column `c` missing or null (pandas `isna`)? -/
def Row.isna (r : Row) (c : String) : Bool :=
  match r.get c with
  | some v => v == Val.null
  | none => true

/-- Does the row hold any null value (used by `dropna()` with no subset)? -/
def Row.anyNull : Row → Bool
  | [] => false
  | (_, v) :: r => v == Val.null || Row.anyNull r

/-- A DataFrame: a list of rows. -/
abbrev DF : Type := List Row

/-- `df[c] = f(row)` for each row. -/
def DF.assign (df : DF) (c : String) (f : Row → Val) : DF :=
  List.map (fun r => r.set c (f r)) df

/-- `df[c] = f(df[c])`: transform one column cell-wise. -/
def DF.mapCol (df : DF) (c : String) (f : Val → Val) : DF :=
  List.map (fun r => Row.set r c (f (r.getD c))) df

/-- `df.drop(c, axis=1)`. -/
def DF.dropCol (df : DF) (c : String) : DF :=
  List.map (fun r => r.dropC c) df

/-- `df.drop([c1, ..., cn], axis=1)`. -/
def DF.dropCols (df : DF) (cs : List String) : DF :=
  List.foldl DF.dropCol df cs

/-- Row selection `df[pred]`. -/
def DF.filterRows (df : DF) (p : Row → Bool) : DF :=
  List.filter p df

/-- `df.rename(columns=m)`. -/
def DF.renameCols (df : DF) (m : List (String × String)) : DF :=
  List.map (Row.rename m) df

/-- `df.dropna()`: drop every row holding a null value. -/
def DF.dropna (df : DF) : DF :=
  List.filter (fun r => !(Row.anyNull r)) df

/-- `df.dropna(subset=cs)`: drop rows whose value is missing/null in one of
the columns `cs`. -/
def DF.dropnaSubset (df : DF) (cs : List String) : DF :=
  List.filter (fun r => cs.all (fun c => !(Row.isna r c))) df

/-- `df[[c1, ..., cn]]`: keep (and order) only the named columns. -/
def DF.selectCols (df : DF) (cs : List String) : DF :=
  List.map (fun r => cs.map (fun c => (c, Row.getD r c))) df

/-- Helper of `drop_duplicates`: the key of a row on a column subset. -/
def dupKey (cs : List String) (r : Row) : List (Option Val) :=
  cs.map (Row.get r)

/-- `df.drop_duplicates(subset=cs)` (keep the first occurrence). -/
def DF.dropDup : DF → List String → List (List (Option Val)) → DF
  | [], _, _ => []
  | r :: rs, cs, seen =>
      if dupKey cs r ∈ seen then DF.dropDup rs cs seen
      else r :: DF.dropDup rs cs (dupKey cs r :: seen)

/-- `df.drop_duplicates(subset=cs)`. -/
def DF.dropDuplicates (df : DF) (cs : List String) : DF :=
  DF.dropDup df cs []

/-- `df.replace(to_replace=a, value=b)` cell-wise (exact match). -/
def DF.replaceVal (df : DF) (a b : Val) : DF :=
  List.map (fun r => List.map (fun p : String × Val =>
    (p.1, if p.2 = a then b else p.2)) r) df

/-! ## Category mapping (`cleanstrings`) and filter predicates -/

/-- Lookup in a static (pattern, category) table. -/
def lookupCodes : List (List Nat × List Nat) → List Nat → Option (List Nat)
  | [], _ => none
  | (k, v) :: m, s => if k = s then some v else lookupCodes m s

/-- Modelled from the spec: `cleanstrings` (imported from `pudl.ferc1`, whose
source is not under `src/`) performs "string-to-category mapping via static
lookup tables"; a string matching no entry of the table, and any non-string
cell, becomes the supplied `unmapped` value (the callers in `pudl.py` pass
`unmapped=np.nan`, i.e. null). -/
def cleanstrings (table : List (List Nat × List Nat)) (unmapped : Val) : Val → Val
  | Val.str s =>
      match lookupCodes table s with
      | some cat => Val.str cat
      | none => unmapped
  | _ => unmapped

/-- SQL `col != ''` on a cell: true exactly for non-empty strings (SQL NULL
comparisons select nothing). -/
def Val.sqlNeEmpty : Val → Bool
  | Val.str l => !(l.isEmpty)
  | _ => false

/-- SQL `col > 0` on a cell. -/
def Val.gtZero : Val → Bool
  | Val.num q => decide (0 < q)
  | _ => false

/-- SQL `report_year.in_(years)` on a cell. -/
def Val.inYears (years : List ℚ) (v : Val) : Bool :=
  years.any (fun y => v == Val.num y)

/-- The FERC Form 1 bookkeeping columns dropped by every FERC ingest
function. -/
def ferc1DropCols : List String :=
  ["spplmnt_num", "row_number", "row_seq", "row_prvlg", "report_prd"]

/-! ## `ingest_fuel_ferc1` -/

/-- Column renaming of `ingest_fuel_ferc1` (FERC 1 name, PUDL name). -/
def fuelFerc1Rename : List (String × String) :=
  [("fuel_quantity", "fuel_qty_burned"),
   ("fuel_avg_heat", "fuel_avg_mmbtu_per_unit"),
   ("fuel_cost_burned", "fuel_cost_per_unit_burned"),
   ("fuel_cost_delvd", "fuel_cost_per_unit_delivered"),
   ("fuel_cost_btu", "fuel_cost_per_mmbtu")]

/-- `ingest_fuel_ferc1`: the frame inserted into `fuel_ferc1`, as a function
of the raw `f1_fuel` table, the requested years, and the two category lookup
tables (`ferc1_fuel_strings`, `ferc1_fuel_unit_strings` live in
`pudl.constants`, not under `src/`, so they are parameters). -/
def ingest_fuel_ferc1 (fuelStrings fuelUnitStrings : List (List Nat × List Nat))
    (ferc1_years : List ℚ) (f1_fuel : DF) : DF :=
  let df := f1_fuel.filterRows (fun r =>
    Val.sqlNeEmpty (r.getD "fuel") &&
    Val.gtZero (r.getD "fuel_quantity") &&
    Val.sqlNeEmpty (r.getD "plant_name") &&
    Val.inYears ferc1_years (r.getD "report_year"))
  let df := df.dropCols ferc1DropCols
  let df := df.mapCol "plant_name" Val.pyStrip
  let df := df.mapCol "plant_name" Val.pyTitle
  let df := df.mapCol "fuel" (cleanstrings fuelStrings Val.null)
  let df := df.mapCol "fuel_unit" (cleanstrings fuelUnitStrings Val.null)
  let df := df.assign "fuel_cost_per_mwh" (fun r => Val.mulC 1000 (r.getD "fuel_cost_kwh"))
  let df := df.dropCol "fuel_cost_kwh"
  let df := df.assign "fuel_mmbtu_per_mwh" (fun r => Val.mulC 1000 (r.getD "fuel_generaton"))
  let df := df.dropCol "fuel_generaton"
  let df := df.dropna
  df.renameCols fuelFerc1Rename

/-! ## `ingest_plants_steam_ferc1` -/

/-- Column renaming of `ingest_plants_steam_ferc1`. -/
def steamFerc1Rename : List (String × String) :=
  [("yr_const", "year_constructed"),
   ("yr_installed", "year_installed"),
   ("tot_capacity", "total_capacity_mw"),
   ("peak_demand", "peak_demand_mw"),
   ("plnt_capability", "plant_capability_mw"),
   ("when_limited", "water_limited_mw"),
   ("when_not_limited", "not_water_limited_mw"),
   ("avg_num_of_emp", "avg_num_employees"),
   ("net_generation", "net_generation_mwh"),
   ("cost_of_plant_to", "cost_of_plant_total"),
   ("expns_steam_othr", "expns_steam_other"),
   ("expns_engnr", "expns_engineering"),
   ("tot_prdctn_expns", "expns_production_total")]

/-- `ingest_plants_steam_ferc1`: the frame inserted into
`plants_steam_ferc1`.  The `ferc1_type_const_strings` and
`ferc1_plant_kind_strings` lookup tables are parameters (they live in
`pudl.constants`). -/
def ingest_plants_steam_ferc1 (typeConstStrings plantKindStrings : List (List Nat × List Nat))
    (ferc1_years : List ℚ) (f1_steam : DF) : DF :=
  let df := f1_steam.filterRows (fun r =>
    Val.gtZero (r.getD "net_generation") &&
    Val.sqlNeEmpty (r.getD "plant_name") &&
    Val.inYears ferc1_years (r.getD "report_year"))
  let df := df.dropCols ferc1DropCols
  let df := df.mapCol "plant_name" Val.pyStrip
  let df := df.mapCol "plant_name" Val.pyTitle
  let df := df.mapCol "type_const" (cleanstrings typeConstStrings Val.null)
  let df := df.mapCol "plant_kind" (cleanstrings plantKindStrings Val.null)
  let df := df.mapCol "yr_const" toNumericCoerce
  let df := df.mapCol "yr_installed" toNumericCoerce
  let df := df.assign "cost_per_mw" (fun r => Val.mulC 1000 (r.getD "cost_per_kw"))
  let df := df.dropCol "cost_per_kw"
  let df := df.assign "net_generation_mwh" (fun r => Val.mulC 1000 (r.getD "net_generation"))
  let df := df.dropCol "net_generation"
  let df := df.assign "expns_per_mwh" (fun r => Val.mulC 1000 (r.getD "expns_kwh"))
  let df := df.dropCol "expns_kwh"
  df.renameCols steamFerc1Rename

/-! ## `ingest_plants_hydro_ferc1` -/

/-- Column renaming of `ingest_plants_hydro_ferc1`. -/
def hydroFerc1Rename : List (String × String) :=
  [("project_no", "project_number"),
   ("yr_const", "year_constructed"),
   ("plant_const", "plant_construction"),
   ("yr_installed", "year_installed"),
   ("tot_capacity", "total_capacity_mw"),
   ("peak_demand", "peak_demand_mw"),
   ("plant_hours", "plant_hours_connected_while_generating"),
   ("favorable_cond", "net_capacity_favorable_conditions_mw"),
   ("adverse_cond", "net_capacity_adverse_conditions_mw"),
   ("avg_num_of_emp", "avg_number_employees"),
   ("cost_of_land", "cost_land"),
   ("expns_engnr", "expns_engineering"),
   ("expns_total", "expns_production_total")]

/-- `ingest_plants_hydro_ferc1`: the frame inserted into
`plants_hydro_ferc1`. -/
def ingest_plants_hydro_ferc1 (ferc1_years : List ℚ) (f1_hydro : DF) : DF :=
  let df := f1_hydro.filterRows (fun r =>
    Val.sqlNeEmpty (r.getD "plant_name") &&
    Val.inYears ferc1_years (r.getD "report_year"))
  let df := df.dropCols ferc1DropCols
  let df := df.mapCol "plant_name" Val.pyStrip
  let df := df.mapCol "plant_name" Val.pyTitle
  let df := df.assign "net_generation_mwh" (fun r => Val.divC 1000 (r.getD "net_generation"))
  let df := df.dropCol "net_generation"
  let df := df.assign "cost_per_mw" (fun r => Val.mulC 1000 (r.getD "cost_per_kw"))
  let df := df.dropCol "cost_per_kw"
  let df := df.assign "expns_per_mwh" (fun r => Val.mulC 1000 (r.getD "expns_kwh"))
  let df := df.dropCol "expns_kwh"
  let df := df.mapCol "yr_const" toNumericCoerce
  let df := df.mapCol "yr_installed" toNumericCoerce
  let df := df.dropna
  df.renameCols hydroFerc1Rename

/-! ## `ingest_plants_pumped_storage_ferc1` -/

/-- Column renaming dictionary of `ingest_plants_pumped_storage_ferc1`
(the source also carries a stray key `"report_year "` with a trailing
space). -/
def pumpedStorageFerc1Rename : List (String × String) :=
  [("respondent_id", "id"),
   ("report_year ", "year"),
   ("project_no", "project_number"),
   ("tot_capacity", "total_capacity_mw"),
   ("peak_demand", "peak_demand_mw"),
   ("plant_hours", "plant_hours_connected_while_generating"),
   ("plant_capability", "plant_capability_mw"),
   ("avg_num_of_emp", "avg_number_employees"),
   ("net_generation", "net_generation_mwh"),
   ("net_load", "net_load_mwh"),
   ("cost_wheels", "cost_wheels_turbines_generators"),
   ("cost_electric", "cost_equipment"),
   ("cost_misc_eqpmnt", "cost_equipment_misc"),
   ("cost_of_plant", "cost_plant_total"),
   ("cost_per_kw", "cost_per_mw"),
   ("expns_water_pwr", "expns_water_for_pwr"),
   ("expns_pump_stg", "expns_pump_storage"),
   ("expns_misc_power", "expns_generation_misc"),
   ("expns_misc_plnt", "expns_misc_plant"),
   ("expns_producton", "expns_producton_before_pumping"),
   ("tot_prdctn_exns", "expns_producton_total"),
   ("expns_kwh", "expns_per_mwh")]

/-- `ingest_plants_pumped_storage_ferc1`: the frame inserted into
`plants_pumped_storage_ferc1`.  Note two quirks carried over verbatim from
the source: after each conversion except `net_generation` the function drops
the NEW column rather than the raw one, and the final `rename` is called
without `inplace=True`, so its result is discarded and the frame written is
the un-renamed one. -/
def ingest_plants_pumped_storage_ferc1 (ferc1_years : List ℚ)
    (f1_pumped_storage : DF) : DF :=
  let df := f1_pumped_storage.filterRows (fun r =>
    Val.sqlNeEmpty (r.getD "plant_name") &&
    Val.inYears ferc1_years (r.getD "report_year"))
  let df := df.dropCols ferc1DropCols
  let df := df.mapCol "plant_name" Val.pyStrip
  let df := df.mapCol "plant_name" Val.pyTitle
  let df := df.assign "net_generation_mwh" (fun r => Val.divC 1000 (r.getD "net_generation"))
  let df := df.dropCol "net_generation"
  let df := df.assign "energy_used_for_pumping_mwh" (fun r => Val.divC 1000 (r.getD "energy_used"))
  let df := df.dropCol "energy_used_for_pumping_mwh"
  let df := df.assign "net_load_mwh" (fun r => Val.divC 1000 (r.getD "net_load"))
  let df := df.dropCol "net_load_mwh"
  let df := df.assign "cost_per_mw" (fun r => Val.mulC 1000 (r.getD "cost_per_kw"))
  let df := df.dropCol "cost_per_mw"
  let df := df.assign "expns_per_mwh" (fun r => Val.mulC 1000 (r.getD "expns_kwh"))
  let df := df.dropCol "expns_per_mwh"
  let df := df.dropna
  let _renamed := df.renameCols pumpedStorageFerc1Rename
  df

/-! ## Python exceptions and database effects -/

/-- The unhandled Python exceptions the embedded code can raise. -/
inductive PyErr where
  | assertionError : PyErr
  | nameError : PyErr
deriving DecidableEq, Repr

/-- A side effect on a database: reading a source table or bulk-writing a
destination table. -/
inductive DbEffect where
  | readSql : String → DbEffect
  | toSql : String → DbEffect
deriving DecidableEq, Repr

/-! ## `ingest_plants_small_ferc1` (C10) -/

/-- The names bound at module level of `pudl.py`: the imported names of
lines 21–81 and the module's own function definitions.  `f1_gnrt_plant` is
not among them. -/
def pudlModuleGlobals : List String :=
  ["pd", "np", "select", "URL", "create_engine",
   "Integer", "String", "Numeric", "Boolean", "Float",
   "settings", "db_connect_ferc1", "cleanstrings", "ferc1_meta",
   "get_eia923_page", "yearly_to_monthly_eia923",
   "ferc1_fuel_strings", "us_states", "prime_movers",
   "ferc1_fuel_unit_strings", "rto_iso",
   "ferc1_type_const_strings", "ferc1_plant_kind_strings",
   "ferc1_default_tables", "ferc1_pudl_tables", "ferc1_working_tables",
   "ferc_electric_plant_accounts", "ferc_accumulated_depreciation",
   "month_dict_2015_eia923",
   "Fuel", "FuelUnit", "Month", "Quarter", "PrimeMover", "Year",
   "State", "RTOISO", "census_region", "nerc_region",
   "fuel_type_aer_eia923", "respondent_frequency_eia923",
   "sector_eia", "contract_type_eia923",
   "fuel_type_eia923", "prime_movers_eia923",
   "fuel_units_eia923", "energy_source_eia923", "fuel_group_eia923",
   "coalmine_type_eia923", "coalmine_state_eia923",
   "natural_gas_transport_eia923", "transport_modes_eia923",
   "pagemap_eia923", "eia923_pudl_tables",
   "CensusRegion", "NERCRegion",
   "SectorEIA", "ContractTypeEIA923", "EnergySourceEIA923",
   "CoalMineTypeEIA923", "CoalMineStateEIA923",
   "NaturalGasTransportEIA923", "TransportModeEIA923",
   "RespondentFrequencyEIA923", "PrimeMoverEIA923", "FuelTypeAER",
   "FuelTypeEIA923", "FuelGroupEIA923", "FuelUnitEIA923",
   "PlantInfoEIA923", "BoilersEIA923", "BoilerFuelEIA923",
   "Utility", "UtilityFERC1", "UtilityEIA923",
   "Plant", "PlantFERC1", "PlantEIA923", "UtilPlantAssn", "PUDLBase",
   "db_connect_pudl", "create_tables_pudl", "drop_tables_pudl",
   "ingest_static_tables", "ingest_glue_tables",
   "ingest_fuel_ferc1", "ingest_plants_steam_ferc1",
   "ingest_plants_hydro_ferc1", "ingest_plants_pumped_storage_ferc1",
   "ingest_accumulated_depreciation_ferc1", "ingest_plant_in_service_ferc1",
   "ingest_plants_small_ferc1", "ingest_purchased_power_ferc1",
   "ingest_plant_info_eia923", "ingest_generation_fuel_eia923",
   "ingest_boiler_fuel_eia923", "ingest_generator_eia923",
   "ingest_fuel_receipts_costs_eia923", "ingest_stocks_eia923",
   "init_db"]

/-- `ingest_plants_small_ferc1` binds the `f1_gnrt_plant` table object to the
local name `f1_small_table` and then builds
`select([f1_small_table]).where(f1_gnrt_plant.c.report_year.in_(ferc1_years))`.
Evaluating the `where` clause requires resolving the name `f1_gnrt_plant`,
which is bound neither among the function's local names nor at module level,
so Python raises a `NameError` there — before the `pd.read_sql` call and the
final `to_sql` write.  On success (which never happens) the function would
read `f1_gnrt_plant` and write `plants_small_ferc1`. -/
def ingest_plants_small_ferc1 : Except PyErr (List DbEffect) :=
  let boundLocals := ["pudl_engine", "ferc1_engine", "ferc1_years", "f1_small_table"]
  let scope := boundLocals ++ pudlModuleGlobals
  if scope.contains "f1_gnrt_plant" then
    Except.ok [DbEffect.readSql "f1_gnrt_plant", DbEffect.toSql "plants_small_ferc1"]
  else
    Except.error PyErr.nameError

/-! ## `ingest_glue_tables` -/

/-- Left join `l.join(r.set_index(key), on=key)`: every left row is paired
with each matching right row (right's `key` column removed); a left row with
no match gets nulls for the remaining right columns `rcols`. -/
def DF.leftJoinOn (l r : DF) (key : String) (rcols : List String) : DF :=
  List.foldr (fun lr acc =>
    (match List.filter (fun rr : Row => Row.get rr key == Row.get lr key) r with
     | [] => [lr ++ (rcols.filter (fun c => c ≠ key)).map (fun c => (c, Val.null))]
     | ms => ms.map (fun rr => lr ++ rr.dropC key)) ++ acc) [] l

/-- Number of rows of `df` that hold at least one null value (the quantity
checked by the `assert` of `ingest_glue_tables`). -/
def countNullRows (df : DF) : Nat :=
  (List.filter Row.anyNull df).length

/-- `ingest_glue_tables`: the frames inserted into the glue tables, as a
function of the two sheets of the manually curated id-mapping spreadsheet
(`plants_output` and `utilities_output`).  Raises `AssertionError` when one
of the four source-specific frames has more than one row with null values.
The inserted frames are returned in `to_sql` order. -/
def ingest_glue_tables (plant_map utility_map : DF) :
    Except PyErr (List (String × DF)) :=
  let plant_map := plant_map.mapCol "plant_name_ferc1" Val.pyStrip
  let plant_map := plant_map.mapCol "plant_name_ferc1" Val.pyTitle
  let plants := (plant_map.selectCols ["plant_id", "plant_name"]).dropDuplicates ["plant_id"]
  let plants_eia923 := (plant_map.selectCols
    ["plant_id_eia923", "plant_name_eia923", "plant_id"]).dropDuplicates ["plant_id_eia923"]
  let plants_ferc1 := (plant_map.selectCols
    ["plant_name_ferc1", "respondent_id_ferc1", "plant_id"]).dropDuplicates
    ["plant_name_ferc1", "respondent_id_ferc1"]
  let utilities := (utility_map.selectCols ["utility_id", "utility_name"]).dropDuplicates ["utility_id"]
  let utilities_eia923 := (utility_map.selectCols
    ["operator_id_eia923", "operator_name_eia923", "utility_id"]).dropDuplicates
    ["operator_id_eia923"]
  let utilities_ferc1 := (utility_map.selectCols
    ["respondent_id_ferc1", "respondent_name_ferc1", "utility_id"]).dropDuplicates
    ["respondent_id_ferc1"]
  let plants_respondents := plant_map.selectCols ["plant_id", "respondent_id_ferc1"]
  let plants_operators := plant_map.selectCols ["plant_id", "operator_id_eia923"]
  let utility_plant_ferc1 := utilities_ferc1.leftJoinOn plants_respondents
    "respondent_id_ferc1" ["plant_id", "respondent_id_ferc1"]
  let utility_plant_eia923 := utilities_eia923.leftJoinOn plants_operators
    "operator_id_eia923" ["plant_id", "operator_id_eia923"]
  let utility_plant_assn := utility_plant_eia923 ++ utility_plant_ferc1
  let utility_plant_assn :=
    ((utility_plant_assn.selectCols ["plant_id", "utility_id"]).dropna).dropDuplicates
    ["plant_id", "utility_id"]
  if countNullRows plants_eia923 ≤ 1 ∧ countNullRows plants_ferc1 ≤ 1 ∧
      countNullRows utilities_eia923 ≤ 1 ∧ countNullRows utilities_ferc1 ≤ 1 then
    let plants_eia923 := plants_eia923.dropna
    let plants_ferc1 := plants_ferc1.dropna
    let utilities_eia923 := utilities_eia923.dropna
    let utilities_ferc1 := utilities_ferc1.dropna
    Except.ok
      [("plants", plants.renameCols [("plant_id", "id"), ("plant_name", "name")]),
       ("utilities", utilities.renameCols [("utility_id", "id"), ("utility_name", "name")]),
       ("utilities_eia923", utilities_eia923.renameCols
          [("operator_id_eia923", "operator_id"),
           ("operator_name_eia923", "operator_name"),
           ("utility_id", "util_id_pudl")]),
       ("utilities_ferc1", utilities_ferc1.renameCols
          [("respondent_id_ferc1", "respondent_id"),
           ("respondent_name_ferc1", "respondent_name"),
           ("utility_id", "util_id_pudl")]),
       ("plants_eia923", plants_eia923.renameCols
          [("plant_id_eia923", "plant_id"),
           ("plant_name_eia923", "plant_name"),
           ("plant_id", "plant_id_pudl")]),
       ("plants_ferc1", plants_ferc1.renameCols
          [("respondent_id_ferc1", "respondent_id"),
           ("plant_name_ferc1", "plant_name"),
           ("plant_id", "plant_id_pudl")]),
       ("util_plant_assn", utility_plant_assn)]
  else
    Except.error PyErr.assertionError

/-! ## `ingest_plant_in_service_ferc1`, `ingest_purchased_power_ferc1`,
`ingest_accumulated_depreciation_ferc1` -/

/-- `ingest_plant_in_service_ferc1`: the frame inserted into
`plant_in_service_ferc1`.  `ferc_electric_plant_accounts` is data from
`pudl.constants`, hence a parameter. -/
def ingest_plant_in_service_ferc1 (ferc_electric_plant_accounts : DF)
    (ferc1_years : List ℚ) (f1_plant_in_srvce : DF) : DF :=
  let df := f1_plant_in_srvce.filterRows (fun r =>
    Val.inYears ferc1_years (r.getD "report_year"))
  let df := df.dropCols ["spplmnt_num", "row_seq", "row_prvlg", "report_prd"]
  let accts := ferc_electric_plant_accounts.dropCol "ferc_account_description"
  let accts := accts.dropna
  let accts := accts.mapCol "row_number" toNumericCoerce
  let df := df.leftJoinOn accts "row_number" ["row_number", "ferc_account_id"]
  let df := df.dropCol "row_number"
  df.renameCols
    [("begin_yr_bal", "beginning_year_balance"),
     ("addition", "additions"),
     ("yr_end_bal", "year_end_balance")]

/-- `ingest_purchased_power_ferc1`: the frame inserted into
`purchased_power_ferc1`. -/
def ingest_purchased_power_ferc1 (ferc1_years : List ℚ)
    (f1_purchased_pwr : DF) : DF :=
  let df := f1_purchased_pwr.filterRows (fun r =>
    Val.inYears ferc1_years (r.getD "report_year"))
  let df := df.dropCols ferc1DropCols
  let df := df.replaceVal (Val.str []) Val.null
  let df := df.dropnaSubset ["sttstcl_clssfctn", "rtsched_trffnbr"]
  df.renameCols
    [("athrty_co_name", "authority_company_name"),
     ("sttstcl_clssfctn", "statistical_classification"),
     ("rtsched_trffnbr", "rate_schedule_tariff_number"),
     ("avgmth_bill_dmnd", "average_billing_demand"),
     ("avgmth_ncp_dmnd", "average_monthly_ncp_demand"),
     ("avgmth_cp_dmnd", "average_monthly_cp_demand"),
     ("mwh_recv", "mwh_received"),
     ("mwh_delvd", "mwh_delivered"),
     ("dmnd_charges", "demand_charges"),
     ("erg_charges", "energy_charges"),
     ("othr_charges", "other_charges"),
     ("settlement_tot", "settlement_total")]

/-- `ingest_accumulated_depreciation_ferc1`: the frame inserted into
`accumulated_depreciation_ferc1`.  `ferc_accumulated_depreciation` is data
from `pudl.constants`, hence a parameter. -/
def ingest_accumulated_depreciation_ferc1 (ferc_accumulated_depreciation : DF)
    (ferc1_years : List ℚ) (f1_accumdepr_prvsn : DF) : DF :=
  let df := f1_accumdepr_prvsn.filterRows (fun r =>
    Val.inYears ferc1_years (r.getD "report_year"))
  let df := df.dropCols ["spplmnt_num", "row_seq", "row_prvlg", "item", "report_prd"]
  let acct := ferc_accumulated_depreciation.dropCol "ferc_account_description"
  let acct := acct.dropna
  let acct := acct.mapCol "row_number" toNumericCoerce
  let df := df.leftJoinOn acct "row_number" ["row_number", "line_id"]
  df.dropCol "row_number"

/-! ## EIA 923 ingest functions -/

/-- `plant_frame` columns selected by `ingest_plant_info_eia923`. -/
def plantFrameCols : List String :=
  ["plant_id", "plant_state", "combined_heat_and_power_status",
   "sector_number", "naics_code", "reporting_frequency"]

/-- `generation_fuel` columns merged in by `ingest_plant_info_eia923`. -/
def genFuelInfoCols : List String :=
  ["plant_id", "census_region", "nerc_region"]

/-- `pd.merge(l, r, how='outer', on=key)`: left rows paired with their first
matching right row (the frames are de-duplicated on the key before the call),
left rows without match padded with nulls for the remaining right columns,
and right-only rows padded with nulls for the remaining left columns. -/
def mergeOuter (key : String) (lcols rcols : List String) (l r : DF) : DF :=
  (l.map (fun lr =>
    match List.find? (fun rr : Row => Row.get rr key == Row.get lr key) r with
    | some rr => lr ++ rr.dropC key
    | none => lr ++ (rcols.filter (fun c => c ≠ key)).map (fun c => (c, Val.null))))
  ++ (List.filter (fun rr : Row =>
        !(l.any (fun lr => Row.get lr key == Row.get rr key))) r).map
      (fun rr => rr ++ (lcols.filter (fun c => c ≠ key)).map (fun c => (c, Val.null)))

/-- The `replace({'N': False, 'Y': True})` cell map applied to
`combined_heat_and_power_status`. -/
def ynToBool (v : Val) : Val :=
  if v = Val.s "N" then Val.bool false
  else if v = Val.s "Y" then Val.bool true
  else v

/-- `ingest_plant_info_eia923`: the frame inserted into `plant_info_eia923`,
as a function of the EIA 923 pages (`eia923_dfs`).  The "State fuel-level
increment" filter `plant_id != 99999` is applied to the `generation_fuel`
side only, before the outer merge with the (unfiltered) `plant_frame`
side. -/
def ingest_plant_info_eia923 (eia923_dfs : String → DF) : DF :=
  let plant_frame_df := (eia923_dfs "plant_frame").selectCols plantFrameCols
  let gen_fuel_df := (eia923_dfs "generation_fuel").selectCols genFuelInfoCols
  let gen_fuel_df := gen_fuel_df.filterRows (fun r =>
    r.getD "plant_id" != Val.num 99999)
  let plant_info_df := mergeOuter "plant_id" plantFrameCols genFuelInfoCols
    (plant_frame_df.dropDuplicates ["plant_id"])
    (gen_fuel_df.dropDuplicates ["plant_id"])
  let plant_info_df := plant_info_df.mapCol "combined_heat_and_power_status" ynToBool
  plant_info_df.renameCols
    [("combined_heat_and_power_status", "combined_heat_power"),
     ("sector_number", "eia_sector")]

/-- Columns dropped by `ingest_generation_fuel_eia923`. -/
def genFuelDropColsList : List String :=
  ["combined_heat_and_power_plant", "plant_name", "operator_name",
   "operator_id", "plant_state", "census_region", "nerc_region",
   "naics_code", "eia_sector_number", "sector_name", "physical_unit_label",
   "total_fuel_consumption_quantity", "electric_fuel_consumption_quantity",
   "total_fuel_consumption_mmbtu", "elec_fuel_consumption_mmbtu",
   "net_generation_megawatthours"]

/-- Column renaming of `ingest_generation_fuel_eia923`. -/
def genFuelRename : List (String × String) :=
  [("reported_prime_mover", "prime_mover"),
   ("reported_fuel_type_code", "fuel_type"),
   ("aer_fuel_type_code", "aer_fuel_type"),
   ("quantity", "fuel_consumed_total"),
   ("elec_quantity", "fuel_consumed_for_electricity"),
   ("mmbtuper_unit", "fuel_mmbtu_per_unit"),
   ("tot_mmbtu", "fuel_consumed_total_mmbtu"),
   ("elec_mmbtu", "fuel_consumed_for_electricity_mmbtu"),
   ("netgen", "net_generation_mwh")]

/-- `ingest_generation_fuel_eia923`: the frame inserted into
`generation_fuel_eia923`.  `yearly_to_monthly_eia923` is defined in
`pudl.eia923` (not under `src/`), so the wide-to-long reshaping is the
parameter `y2m`. -/
def ingest_generation_fuel_eia923 (y2m : DF → DF) (eia923_dfs : String → DF) : DF :=
  let gf_df := eia923_dfs "generation_fuel"
  let gf_df := gf_df.dropCols genFuelDropColsList
  let gf_df := y2m gf_df
  let gf_df := gf_df.replaceVal (Val.s ".") Val.null
  let gf_df := gf_df.filterRows (fun r => r.getD "plant_id" != Val.num 99999)
  gf_df.renameCols genFuelRename

/-- Columns dropped by `ingest_boiler_fuel_eia923` from the `boiler_fuel`
page. -/
def boilerFuelDropColsList : List String :=
  ["combined_heat_and_power_plant", "plant_name", "operator_name",
   "operator_id", "plant_state", "census_region", "nerc_region",
   "naics_code", "sector_number", "sector_name", "physical_unit_label",
   "total_fuel_consumption_quantity"]

/-- `ingest_boiler_fuel_eia923`: the two frames inserted into
`boilers_eia923` and `boiler_fuel_eia923` (in `to_sql` order). -/
def ingest_boiler_fuel_eia923 (y2m : DF → DF) (eia923_dfs : String → DF) :
    List (String × DF) :=
  let boilers_df := (eia923_dfs "boiler_fuel").selectCols
    ["plant_id", "boiler_id", "reported_prime_mover"]
  let boilers_df := boilers_df.dropDuplicates ["plant_id", "boiler_id"]
  let boilers_df := boilers_df.renameCols [("reported_prime_mover", "prime_mover")]
  let boilers_df := boilers_df.dropnaSubset ["boiler_id", "plant_id"]
  let bf_df := eia923_dfs "boiler_fuel"
  let bf_df := bf_df.dropCols boilerFuelDropColsList
  let bf_df := bf_df.dropnaSubset ["boiler_id", "plant_id"]
  let bf_df := y2m bf_df
  let bf_df := bf_df.replaceVal (Val.s ".") Val.null
  let bf_df := bf_df.renameCols
    [("reported_prime_mover", "prime_mover"),
     ("reported_fuel_type_code", "fuel_type"),
     ("quantity_of_fuel_consumed", "fuel_qty_consumed"),
     ("mmbtu_per_unit", "fuel_mmbtu_per_unit")]
  [("boilers_eia923", boilers_df), ("boiler_fuel_eia923", bf_df)]

/-- Columns dropped by `ingest_generator_eia923` from the `generator`
page. -/
def generatorDropColsList : List String :=
  ["combined_heat_and_power_plant", "plant_name", "operator_name",
   "operator_id", "plant_state", "census_region", "nerc_region",
   "naics_code", "sector_number", "sector_name",
   "net_generation_year_to_date"]

/-- `ingest_generator_eia923`: the two frames inserted into
`generators_eia923` and `generation_eia923`. -/
def ingest_generator_eia923 (y2m : DF → DF) (eia923_dfs : String → DF) :
    List (String × DF) :=
  let generators_df := (eia923_dfs "generator").selectCols
    ["plant_id", "generator_id", "reported_prime_mover"]
  let generators_df := generators_df.dropDuplicates ["plant_id", "generator_id"]
  let generators_df := generators_df.renameCols [("reported_prime_mover", "prime_mover")]
  let generators_df := generators_df.dropnaSubset ["generator_id", "plant_id"]
  let g_df := eia923_dfs "generator"
  let g_df := g_df.dropCols generatorDropColsList
  let g_df := y2m g_df
  let g_df := g_df.replaceVal (Val.s ".") Val.null
  let g_df := g_df.renameCols
    [("reported_prime_mover", "prime_mover"),
     ("net_generation", "net_generation_mwh")]
  [("generators_eia923", generators_df), ("generation_eia923", g_df)]

/-- Columns of the `fuel_receipts_costs` page selected into the coalmine
frame. -/
def coalmineColsList : List String :=
  ["coalmine_name", "coalmine_type", "coalmine_state",
   "coalmine_county", "coalmine_msha_id"]

/-- Columns dropped by `ingest_fuel_receipts_costs_eia923` from the
`fuel_receipts_costs` page. -/
def frcDropColsList : List String :=
  ["plant_name", "plant_state", "operator_name", "operator_id",
   "fuel_group", "coalmine_name", "coalmine_type", "coalmine_state",
   "coalmine_county", "regulated", "reporting_frequency"]

/-- `ingest_fuel_receipts_costs_eia923`: the two frames inserted into
`coalmine_info_eia923` and `fuel_receipts_costs_eia923`.  Note: in the
source the `dropna(subset=['coalmine_name'])` call on the coalmine frame is
commented out, so the coalmine frame is written exactly as selected; the
fuel-receipts frame filters `plant_id != 8899` (and its
`yearly_to_monthly_eia923` call is commented out). -/
def ingest_fuel_receipts_costs_eia923 (eia923_dfs : String → DF) :
    List (String × DF) :=
  let coalmine_df := (eia923_dfs "fuel_receipts_costs").selectCols coalmineColsList
  let frc_df := eia923_dfs "fuel_receipts_costs"
  let frc_df := frc_df.dropCols frcDropColsList
  let frc_df := frc_df.filterRows (fun r => r.getD "plant_id" != Val.num 8899)
  let frc_df := frc_df.replaceVal (Val.s ".") Val.null
  let frc_df := frc_df.renameCols
    [("purchase_type", "contract_type"),
     ("reported_prime_mover", "prime_mover"),
     ("quantity", "qty"),
     ("natural_gas_transportation_service", "natural_gas_transport")]
  [("coalmine_info_eia923", coalmine_df), ("fuel_receipts_costs_eia923", frc_df)]

/-- `ingest_stocks_eia923` is `pass`: no insert. -/
def ingest_stocks_eia923 (_eia923_dfs : String → DF) : List (String × DF) :=
  []

/-! ## `init_db` -/

/-- The PUDL destination database: named tables holding rows. -/
structure PudlDB where
  tables : List (String × DF)
deriving DecidableEq

/-- `PUDLBase.metadata.drop_all(engine)`: drop every PUDL table. -/
def drop_tables_pudl (_db : PudlDB) : PudlDB :=
  ⟨[]⟩

/-- `PUDLBase.metadata.create_all(engine)`: create every table of the schema
(declared in `pudl.models`, hence the schema is a parameter); tables already
present keep their content. -/
def create_tables_pudl (schema : List String) (db : PudlDB) : PudlDB :=
  ⟨schema.map (fun n => (n, ((db.tables.lookup n).getD [])))⟩

/-- `df.to_sql(name, if_exists='append')`: append the frame to the named
table (creating it if absent). -/
def PudlDB.insertDF (db : PudlDB) (name : String) (df : DF) : PudlDB :=
  if (db.tables.map Prod.fst).contains name then
    ⟨db.tables.map (fun p => if p.1 = name then (p.1, p.2 ++ df) else p)⟩
  else
    ⟨db.tables ++ [(name, df)]⟩

/-- Append a list of (table, frame) inserts in order. -/
def PudlDB.insertAll (db : PudlDB) (l : List (String × DF)) : PudlDB :=
  l.foldl (fun d p => d.insertDF p.1 p.2) db

/-- Database operations performed by a run, in order. -/
inductive DbOp where
  | dropAll : DbOp
  | createAll : DbOp
  | insert : String → DbOp
deriving DecidableEq, Repr

/-- Outcome of a run of `init_db`: the error that propagated (if any), the
state of the destination database when the run ended, and the trace of
database operations performed. -/
structure RunResult where
  err : Option PyErr
  db : PudlDB
  ops : List DbOp
deriving DecidableEq

/-- All repository data and out-of-`src/` helpers a run of `init_db`
consumes: raw FERC Form 1 tables, EIA 923 spreadsheet pages
(`get_eia923_page` lives in `pudl.eia923`), the id-mapping spreadsheet
sheets, the constant frames inserted by `ingest_static_tables` (built from
`pudl.constants` data), the category lookup tables, the two FERC account
tables, and the `yearly_to_monthly_eia923` reshaping. -/
structure Sources where
  ferc1 : String → DF
  eia923Page : String → DF
  plant_map : DF
  utility_map : DF
  staticInserts : List (String × DF)
  fuelStrings : List (List Nat × List Nat)
  fuelUnitStrings : List (List Nat × List Nat)
  typeConstStrings : List (List Nat × List Nat)
  plantKindStrings : List (List Nat × List Nat)
  fercPlantAccounts : DF
  fercAccumDepr : DF
  y2m : DF → DF

/-- The configuration check of `init_db` (lines 1286–1293): every requested
FERC 1 table must be in both `ferc1_working_tables` and
`ferc1_pudl_tables`, and every requested EIA 923 table must be in
`eia923_pudl_tables` (those three lists live in `pudl.constants`, hence are
parameters `wt`, `pt`, `et`). -/
def configOk (wt pt et ferc1_tables eia923_tables : List String) : Bool :=
  ferc1_tables.all (fun t => wt.contains t && pt.contains t) &&
  eia923_tables.all (fun t => et.contains t)

/-- Key order of the `ferc1_ingest_functions` dictionary. -/
def ferc1IngestOrder : List String :=
  ["f1_fuel", "f1_steam", "f1_gnrt_plant", "f1_hydro", "f1_pumped_storage",
   "f1_plant_in_srvce", "f1_purchased_pwr", "f1_accumdepr_prvsn"]

/-- The inserts produced by the FERC 1 ingest function for a given source
table (or the exception it raises). -/
def ferc1Inserts (src : Sources) (ferc1_years : List ℚ) :
    String → Except PyErr (List (String × DF))
  | "f1_fuel" => Except.ok
      [("fuel_ferc1", ingest_fuel_ferc1 src.fuelStrings src.fuelUnitStrings
        ferc1_years (src.ferc1 "f1_fuel"))]
  | "f1_steam" => Except.ok
      [("plants_steam_ferc1", ingest_plants_steam_ferc1 src.typeConstStrings
        src.plantKindStrings ferc1_years (src.ferc1 "f1_steam"))]
  | "f1_gnrt_plant" =>
      match ingest_plants_small_ferc1 with
      | Except.error e => Except.error e
      | Except.ok _ => Except.ok []
  | "f1_hydro" => Except.ok
      [("plants_hydro_ferc1", ingest_plants_hydro_ferc1 ferc1_years
        (src.ferc1 "f1_hydro"))]
  | "f1_pumped_storage" => Except.ok
      [("plants_pumped_storage_ferc1", ingest_plants_pumped_storage_ferc1
        ferc1_years (src.ferc1 "f1_pumped_storage"))]
  | "f1_plant_in_srvce" => Except.ok
      [("plant_in_service_ferc1", ingest_plant_in_service_ferc1
        src.fercPlantAccounts ferc1_years (src.ferc1 "f1_plant_in_srvce"))]
  | "f1_purchased_pwr" => Except.ok
      [("purchased_power_ferc1", ingest_purchased_power_ferc1 ferc1_years
        (src.ferc1 "f1_purchased_pwr"))]
  | "f1_accumdepr_prvsn" => Except.ok
      [("accumulated_depreciation_ferc1", ingest_accumulated_depreciation_ferc1
        src.fercAccumDepr ferc1_years (src.ferc1 "f1_accumdepr_prvsn"))]
  | _ => Except.ok []

/-- Key order of the `eia923_ingest_functions` dictionary. -/
def eia923IngestOrder : List String :=
  ["plant_info_eia923", "generation_fuel_eia923", "boiler_fuel_eia923",
   "generation_eia923", "fuel_receipts_costs_eia923", "stocks_eia923"]

/-- The inserts produced by the EIA 923 ingest function of a given
destination table. -/
def eia923Inserts (src : Sources) : String → Except PyErr (List (String × DF))
  | "plant_info_eia923" => Except.ok
      [("plant_info_eia923", ingest_plant_info_eia923 src.eia923Page)]
  | "generation_fuel_eia923" => Except.ok
      [("generation_fuel_eia923", ingest_generation_fuel_eia923 src.y2m src.eia923Page)]
  | "boiler_fuel_eia923" => Except.ok (ingest_boiler_fuel_eia923 src.y2m src.eia923Page)
  | "generation_eia923" => Except.ok (ingest_generator_eia923 src.y2m src.eia923Page)
  | "fuel_receipts_costs_eia923" => Except.ok
      (ingest_fuel_receipts_costs_eia923 src.eia923Page)
  | "stocks_eia923" => Except.ok (ingest_stocks_eia923 src.eia923Page)
  | _ => Except.ok []

/-- Run a list of ingest steps in order; a raised exception stops the run,
leaving the database and trace as they were at that point. -/
def runSteps : List (Except PyErr (List (String × DF))) → PudlDB → List DbOp → RunResult
  | [], db, ops => ⟨none, db, ops⟩
  | Except.error e :: _, db, ops => ⟨some e, db, ops⟩
  | Except.ok inserts :: rest, db, ops =>
      runSteps rest (db.insertAll inserts)
        (ops ++ inserts.map (fun p => DbOp.insert p.1))

/-- `init_db`: the whole pipeline.  With `debug=False` the configuration
check runs first and an `AssertionError` is raised before any database
operation when it fails; otherwise the destination database is dropped and
recreated, and then the static, glue, FERC 1 and EIA 923 ingest steps run in
program order. -/
def init_db (wt pt et schema : List String)
    (ferc1_tables : List String) (ferc1_years : List ℚ)
    (eia923_tables : List String) (debug : Bool)
    (src : Sources) (db : PudlDB) : RunResult :=
  if !debug && !(configOk wt pt et ferc1_tables eia923_tables) then
    ⟨some PyErr.assertionError, db, []⟩
  else
    let db1 := create_tables_pudl schema (drop_tables_pudl db)
    let steps :=
      Except.ok src.staticInserts ::
      ingest_glue_tables src.plant_map src.utility_map ::
      ((ferc1IngestOrder.filter (fun t => ferc1_tables.contains t)).map
        (ferc1Inserts src ferc1_years) ++
       (eia923IngestOrder.filter (fun t => eia923_tables.contains t)).map
        (eia923Inserts src))
    runSteps steps db1 [DbOp.dropAll, DbOp.createAll]

/-! ## Lemmas: row-level plumbing -/

theorem Row.get_eq_none_cons {k : String} {v : Val} {r : Row} {c : String}
    (h : Row.get ((k, v) :: r) c = none) : k ≠ c ∧ Row.get r c = none := by
  by_cases hk : k = c
  · simp [Row.get, hk] at h
  · simpa [Row.get, hk] using h

theorem Row.get_append_some {r : Row} {c : String} {v : Val} (s : Row)
    (h : Row.get r c = some v) : Row.get (r ++ s) c = some v := by
  induction r with
  | nil => simp [Row.get] at h
  | cons a t ih =>
      obtain ⟨k, w⟩ := a
      by_cases hk : k = c
      · simpa [Row.get, hk] using h
      · rw [List.cons_append]
        simp only [Row.get, hk, if_false] at h ⊢
        exact ih h

theorem Row.get_append_none {r : Row} {c : String} (s : Row)
    (h : Row.get r c = none) : Row.get (r ++ s) c = Row.get s c := by
  induction r with
  | nil => rfl
  | cons a t ih =>
      obtain ⟨k, w⟩ := a
      obtain ⟨hk, ht⟩ := Row.get_eq_none_cons h
      rw [List.cons_append]
      simp only [Row.get, hk, if_false]
      exact ih ht

theorem Row.get_of_hasCol_false {r : Row} {c : String}
    (h : Row.hasCol r c = false) : Row.get r c = none := by
  induction r with
  | nil => rfl
  | cons a t ih =>
      obtain ⟨k, w⟩ := a
      simp only [Row.hasCol, Bool.or_eq_false_iff, beq_eq_false_iff_ne] at h
      simp only [Row.get, h.1, if_false]
      exact ih h.2

theorem Row.get_overwrite_of_hasCol {r : Row} {c : String} (v : Val)
    (h : Row.hasCol r c = true) :
    Row.get (List.map (fun p => if p.1 = c then (c, v) else p) r) c = some v := by
  induction r with
  | nil => simp [Row.hasCol] at h
  | cons a t ih =>
      obtain ⟨k, w⟩ := a
      show Row.get ((if k = c then (c, v) else (k, w))
        :: List.map (fun p => if p.1 = c then (c, v) else p) t) c = some v
      by_cases hk : k = c
      · rw [if_pos hk]
        simp [Row.get]
      · rw [if_neg hk]
        simp only [Row.hasCol, Bool.or_eq_true, beq_iff_eq] at h
        rcases h with h | h
        · exact absurd h hk
        · simp only [Row.get, hk, if_false]
          exact ih h

theorem Row.get_overwrite_ne (r : Row) {c c' : String} (v : Val) (h : c ≠ c') :
    Row.get (List.map (fun p => if p.1 = c then (c, v) else p) r) c'
      = Row.get r c' := by
  induction r with
  | nil => rfl
  | cons a t ih =>
      obtain ⟨k, w⟩ := a
      show Row.get ((if k = c then (c, v) else (k, w))
        :: List.map (fun p => if p.1 = c then (c, v) else p) t) c'
        = Row.get ((k, w) :: t) c'
      by_cases hk : k = c
      · rw [if_pos hk]
        subst hk
        simp only [Row.get, h, if_false, fun hh : k = c' => h (hh ▸ rfl)]
        exact ih
      · rw [if_neg hk]
        by_cases hk' : k = c'
        · simp [Row.get, hk']
        · simp only [Row.get, hk', if_false]
          exact ih

theorem Row.get_set_self (r : Row) (c : String) (v : Val) :
    Row.get (Row.set r c v) c = some v := by
  unfold Row.set
  by_cases h : Row.hasCol r c
  · rw [if_pos h]
    exact Row.get_overwrite_of_hasCol v h
  · rw [if_neg h]
    rw [Row.get_append_none _ (Row.get_of_hasCol_false (by simpa using h))]
    simp [Row.get]

theorem Row.get_set_ne (r : Row) {c c' : String} (v : Val) (h : c ≠ c') :
    Row.get (Row.set r c v) c' = Row.get r c' := by
  unfold Row.set
  by_cases hc : Row.hasCol r c
  · rw [if_pos hc]
    exact Row.get_overwrite_ne r v h
  · rw [if_neg hc]
    cases hg : Row.get r c' with
    | some w => exact Row.get_append_some _ hg
    | none =>
        rw [Row.get_append_none _ hg]
        simp [Row.get, fun hh : c = c' => h hh]

theorem Row.get_dropC_ne (r : Row) {c c' : String} (h : c ≠ c') :
    Row.get (Row.dropC r c) c' = Row.get r c' := by
  induction r with
  | nil => rfl
  | cons a t ih =>
      obtain ⟨k, w⟩ := a
      simp only [Row.dropC, List.filter_cons] at ih ⊢
      by_cases hk : k = c
      · subst hk
        rw [if_neg (by simp)]
        rw [ih]
        simp [Row.get, h]
      · rw [if_pos (by simp [hk])]
        by_cases hk' : k = c'
        · simp [Row.get, hk']
        · simp only [Row.get, hk', if_false]
          exact ih

theorem Row.get_dropC_self (r : Row) (c : String) :
    Row.get (Row.dropC r c) c = none := by
  induction r with
  | nil => rfl
  | cons a t ih =>
      obtain ⟨k, w⟩ := a
      simp only [Row.dropC, List.filter_cons] at ih ⊢
      by_cases hk : k = c
      · subst hk
        rw [if_neg (by simp)]
        exact ih
      · rw [if_pos (by simp [hk])]
        simp only [Row.get, hk, if_false]
        exact ih

/-- Multi-column drop at row level (the row form of `DF.dropCols`). -/
def Row.dropCs (r : Row) (cs : List String) : Row :=
  List.foldl Row.dropC r cs

theorem Row.get_dropCs_ne (cs : List String) (r : Row) {c' : String}
    (h : c' ∉ cs) : Row.get (Row.dropCs r cs) c' = Row.get r c' := by
  induction cs generalizing r with
  | nil => rfl
  | cons c cs ih =>
      have hne : c ≠ c' := fun hh => h (hh ▸ List.mem_cons_self c cs)
      have h' : c' ∉ cs := fun hh => h (List.mem_cons_of_mem c hh)
      show Row.get (Row.dropCs (Row.dropC r c) cs) c' = _
      rw [ih _ h', Row.get_dropC_ne r hne]

theorem DF.dropCols_eq_map (df : DF) (cs : List String) :
    DF.dropCols df cs = List.map (fun r => Row.dropCs r cs) df := by
  induction cs generalizing df with
  | nil => simp [DF.dropCols, Row.dropCs]
  | cons c cs ih =>
      show DF.dropCols (DF.dropCol df c) cs = _
      rw [ih]
      simp only [DF.dropCol, List.map_map]
      rfl

theorem alookup_mem {m : List (String × String)} {k t : String}
    (h : alookup m k = some t) : (k, t) ∈ m := by
  induction m with
  | nil => simp [alookup] at h
  | cons a ms ih =>
      obtain ⟨a1, a2⟩ := a
      by_cases ha : a1 = k
      · subst ha
        simp only [alookup, if_true] at h
        cases h
        exact List.mem_cons_self _ _
      · simp only [alookup, ha, if_false] at h
        exact List.mem_cons_of_mem _ (ih h)

theorem Row.get_rename_fixed (m : List (String × String)) (r : Row) (p : String)
    (h1 : alookup m p = none) (h2 : ∀ q ∈ m, q.2 ≠ p) :
    Row.get (Row.rename m r) p = Row.get r p := by
  induction r with
  | nil => rfl
  | cons a t ih =>
      obtain ⟨k, v⟩ := a
      show Row.get (((alookup m k).getD k, v) :: Row.rename m t) p = _
      by_cases hk : k = p
      · subst hk
        rw [h1]
        simp [Row.get]
      · have htgt : (alookup m k).getD k ≠ p := by
          cases halk : alookup m k with
          | none => simpa using hk
          | some t' => simpa using h2 _ (alookup_mem halk)
        simp only [Row.get, htgt, hk, if_false]
        exact ih

theorem Row.get_rename_target (m : List (String × String)) (k p : String)
    (r : Row) (hk : alookup m k = some p)
    (huniq : ∀ q ∈ m, q.2 = p → q.1 = k)
    (hp : Row.get r p = none) :
    Row.get (Row.rename m r) p = Row.get r k := by
  induction r with
  | nil => rfl
  | cons a t ih =>
      obtain ⟨a1, v⟩ := a
      obtain ⟨hne, htail⟩ := Row.get_eq_none_cons hp
      show Row.get (((alookup m a1).getD a1, v) :: Row.rename m t) p = _
      by_cases ha : a1 = k
      · subst ha
        rw [hk]
        simp [Row.get]
      · have htgt : (alookup m a1).getD a1 ≠ p := by
          cases halk : alookup m a1 with
          | none => simpa using hne
          | some t' =>
              simp only [Option.getD_some]
              intro hh
              exact ha (huniq _ (alookup_mem halk) hh)
        simp only [Row.get, htgt, ha, if_false]
        exact ih htail

theorem Row.get_rename_keep (m : List (String × String)) (r : Row) (p : String)
    (h1 : alookup m p = none)
    (h2 : ∀ q ∈ m, q.2 = p → Row.get r q.1 = none) :
    Row.get (Row.rename m r) p = Row.get r p := by
  induction r with
  | nil => rfl
  | cons a t ih =>
      obtain ⟨k, v⟩ := a
      show Row.get (((alookup m k).getD k, v) :: Row.rename m t) p = _
      by_cases hk : k = p
      · subst hk
        rw [h1]
        simp [Row.get]
      · have htgt : (alookup m k).getD k ≠ p := by
          cases halk : alookup m k with
          | none => simpa using hk
          | some t' =>
              simp only [Option.getD_some]
              intro hh
              have := h2 _ (alookup_mem halk) hh
              simp [Row.get] at this
        simp only [Row.get, htgt, hk, if_false]
        refine ih ?_
        intro q hq hqp
        exact (Row.get_eq_none_cons (h2 q hq hqp)).2

theorem DF.mem_dropDup {df : DF} {cs : List String}
    {seen : List (List (Option Val))} {r : Row}
    (h : r ∈ DF.dropDup df cs seen) : r ∈ df := by
  induction df generalizing seen with
  | nil => simp [DF.dropDup] at h
  | cons a t ih =>
      by_cases hd : dupKey cs a ∈ seen
      · simp only [DF.dropDup, hd, if_true] at h
        exact List.mem_cons_of_mem _ (ih h)
      · simp only [DF.dropDup, hd, if_false, List.mem_cons] at h
        rcases h with h | h
        · exact h ▸ List.mem_cons_self _ _
        · exact List.mem_cons_of_mem _ (ih h)

theorem forall_mem_map {α β : Type _} {f : α → β} {l : List α} {Q : β → Prop}
    (h : ∀ a ∈ l, Q (f a)) : ∀ b ∈ List.map f l, Q b := by
  intro b hb
  obtain ⟨a, ha, rfl⟩ := List.mem_map.mp hb
  exact h a ha

theorem forall_mem_filter {α : Type _} {p : α → Bool} {l : List α} {Q : α → Prop}
    (h : ∀ a ∈ l, Q a) : ∀ a ∈ List.filter p l, Q a := by
  intro a ha
  exact h a (List.mem_filter.mp ha).1

/-! ## Lemmas: `strip`/`title` canonicalization -/

theorem upperCode_idem (n : Nat) : upperCode (upperCode n) = upperCode n := by
  by_cases h : 97 ≤ n ∧ n ≤ 122
  · have h1 : upperCode n = n - 32 := if_pos h
    rw [h1]
    exact if_neg (by omega)
  · have h1 : upperCode n = n := if_neg h
    rw [h1]
    exact h1

theorem lowerCode_idem (n : Nat) : lowerCode (lowerCode n) = lowerCode n := by
  by_cases h : 65 ≤ n ∧ n ≤ 90
  · have h1 : lowerCode n = n + 32 := if_pos h
    rw [h1]
    exact if_neg (by omega)
  · have h1 : lowerCode n = n := if_neg h
    rw [h1]
    exact h1

theorem isAlphaCode_upperCode (n : Nat) :
    isAlphaCode (upperCode n) = isAlphaCode n := by
  by_cases h : 97 ≤ n ∧ n ≤ 122
  · rw [show upperCode n = n - 32 from if_pos h]
    exact decide_eq_decide.mpr (by omega)
  · rw [show upperCode n = n from if_neg h]

theorem isAlphaCode_lowerCode (n : Nat) :
    isAlphaCode (lowerCode n) = isAlphaCode n := by
  by_cases h : 65 ≤ n ∧ n ≤ 90
  · rw [show lowerCode n = n + 32 from if_pos h]
    exact decide_eq_decide.mpr (by omega)
  · rw [show lowerCode n = n from if_neg h]

theorem isSpaceCode_upperCode (n : Nat) :
    isSpaceCode (upperCode n) = isSpaceCode n := by
  by_cases h : 97 ≤ n ∧ n ≤ 122
  · rw [show upperCode n = n - 32 from if_pos h]
    exact decide_eq_decide.mpr (by omega)
  · rw [show upperCode n = n from if_neg h]

theorem isSpaceCode_lowerCode (n : Nat) :
    isSpaceCode (lowerCode n) = isSpaceCode n := by
  by_cases h : 65 ≤ n ∧ n ≤ 90
  · rw [show lowerCode n = n + 32 from if_pos h]
    exact decide_eq_decide.mpr (by omega)
  · rw [show lowerCode n = n from if_neg h]

theorem titleAux_idem (b : Bool) (l : List Nat) :
    titleAux b (titleAux b l) = titleAux b l := by
  induction l generalizing b with
  | nil => rfl
  | cons n ns ih =>
      cases b with
      | false =>
          show titleAux false (upperCode n :: titleAux (isAlphaCode n) ns)
            = upperCode n :: titleAux (isAlphaCode n) ns
          show upperCode (upperCode n)
            :: titleAux (isAlphaCode (upperCode n)) (titleAux (isAlphaCode n) ns) = _
          rw [upperCode_idem, isAlphaCode_upperCode, ih]
      | true =>
          show titleAux true (lowerCode n :: titleAux (isAlphaCode n) ns)
            = lowerCode n :: titleAux (isAlphaCode n) ns
          show lowerCode (lowerCode n)
            :: titleAux (isAlphaCode (lowerCode n)) (titleAux (isAlphaCode n) ns) = _
          rw [lowerCode_idem, isAlphaCode_lowerCode, ih]

theorem titleAux_map_isSpace (b : Bool) (l : List Nat) :
    List.map isSpaceCode (titleAux b l) = List.map isSpaceCode l := by
  induction l generalizing b with
  | nil => rfl
  | cons n ns ih =>
      cases b with
      | false =>
          show isSpaceCode (upperCode n) :: List.map isSpaceCode (titleAux (isAlphaCode n) ns)
            = isSpaceCode n :: List.map isSpaceCode ns
          rw [isSpaceCode_upperCode, ih]
      | true =>
          show isSpaceCode (lowerCode n) :: List.map isSpaceCode (titleAux (isAlphaCode n) ns)
            = isSpaceCode n :: List.map isSpaceCode ns
          rw [isSpaceCode_lowerCode, ih]

theorem space_fixed_chars {n : Nat} (h : isSpaceCode n = true) :
    upperCode n = n ∧ lowerCode n = n ∧ isAlphaCode n = false := by
  unfold isSpaceCode at h
  rw [decide_eq_true_eq] at h
  refine ⟨if_neg (by omega), if_neg (by omega), ?_⟩
  unfold isAlphaCode
  rw [decide_eq_false_iff_not]
  omega

theorem titleCodes_space_cons {n : Nat} (ns : List Nat)
    (h : isSpaceCode n = true) :
    titleCodes (n :: ns) = n :: titleCodes ns := by
  obtain ⟨hu, _, ha⟩ := space_fixed_chars h
  show upperCode n :: titleAux (isAlphaCode n) ns = n :: titleAux false ns
  rw [hu, ha]

theorem dropWhile_titleCodes (x : List Nat) :
    List.dropWhile isSpaceCode (titleCodes x)
      = titleCodes (List.dropWhile isSpaceCode x) := by
  induction x with
  | nil => rfl
  | cons n ns ih =>
      by_cases hs : isSpaceCode n = true
      · rw [titleCodes_space_cons ns hs]
        rw [List.dropWhile_cons, List.dropWhile_cons, hs]
        simpa using ih
      · have hs' : isSpaceCode n = false := by simpa using hs
        have hhead : isSpaceCode (upperCode n) = false := by
          rw [isSpaceCode_upperCode]
          exact hs'
        show List.dropWhile isSpaceCode (upperCode n :: titleAux (isAlphaCode n) ns) = _
        rw [List.dropWhile_cons, hhead, List.dropWhile_cons, hs']
        simp only [Bool.false_eq_true, if_false]
        rfl

theorem dropWhile_rdropWhile_self {q : Nat → Bool} {A : List Nat}
    (h : List.dropWhile q A = A) :
    List.dropWhile q (List.rdropWhile q A) = List.rdropWhile q A := by
  obtain ⟨t, ht⟩ := ( List.rdropWhile_prefix q A)
  cases hr : List.rdropWhile q A with
  | nil => rfl
  | cons c cs =>
      rw [hr] at ht
      have hA : A = c :: (cs ++ t) := by
        rw [← ht]
        simp
      have hqc : q c = false := by
        rw [hA, List.dropWhile_cons] at h
        by_cases hq : q c = true
        · rw [if_pos hq] at h
          have hlen := congrArg List.length h
          have hle : (List.dropWhile q (cs ++ t)).length ≤ (cs ++ t).length :=
            (List.dropWhile_suffix q).length_le
          simp only [List.length_cons] at hlen
          omega
        · simpa using hq
      rw [List.dropWhile_cons, hqc]
      simp

theorem dropWhile_stripCodes (l : List Nat) :
    List.dropWhile isSpaceCode (stripCodes l) = stripCodes l :=
  dropWhile_rdropWhile_self (List.dropWhile_idempotent isSpaceCode l)

theorem rdropWhile_stripCodes (l : List Nat) :
    List.rdropWhile isSpaceCode (stripCodes l) = stripCodes l :=
  List.rdropWhile_idempotent isSpaceCode (List.dropWhile isSpaceCode l)

theorem rdropWhile_titleCodes_self {x : List Nat}
    (hx : List.rdropWhile isSpaceCode x = x) :
    List.rdropWhile isSpaceCode (titleCodes x) = titleCodes x := by
  rw [List.rdropWhile_eq_self_iff]
  intro hl
  have hmask : List.map isSpaceCode (titleCodes x) = List.map isSpaceCode x :=
    titleAux_map_isSpace false x
  have hx_ne : x ≠ [] := by
    intro hh
    apply hl
    rw [hh]
    rfl
  have h1 : (titleCodes x).getLast? = some ((titleCodes x).getLast hl) :=
    List.getLast?_eq_getLast _ hl
  have h2 : x.getLast? = some (x.getLast hx_ne) :=
    List.getLast?_eq_getLast _ hx_ne
  have hopt : Option.map isSpaceCode ((titleCodes x).getLast?)
      = Option.map isSpaceCode (x.getLast?) := by
    rw [← List.getLast?_map, ← List.getLast?_map, hmask]
  rw [h1, h2] at hopt
  simp only [Option.map_some', Option.some.injEq] at hopt
  have hlast := List.rdropWhile_eq_self_iff.mp hx hx_ne
  rw [hopt]
  exact hlast

/-- The canonical-name property: stripped of edge whitespace and fixed by
title-casing. -/
def canonicalCodes (l : List Nat) : Prop :=
  stripCodes l = l ∧ titleCodes l = l

/-- `title(strip(s))` is canonical: stripping it again changes nothing, and
title-casing it again changes nothing. -/
theorem canonical_title_strip (l : List Nat) :
    canonicalCodes (titleCodes (stripCodes l)) := by
  constructor
  · show List.rdropWhile isSpaceCode
      (List.dropWhile isSpaceCode (titleCodes (stripCodes l)))
      = titleCodes (stripCodes l)
    rw [dropWhile_titleCodes, dropWhile_stripCodes]
    exact rdropWhile_titleCodes_self (rdropWhile_stripCodes l)
  · exact titleAux_idem false (stripCodes l)

/-! ## Rows of the FERC Form 1 source tables

Row constructors fixing the schema of the relevant `f1_*` tables (the columns
named by `pudl.py`), with arbitrary cell values. -/

/-- A row of the `f1_fuel` table. -/
def f1FuelRow (respondent_id report_year spplmnt_num row_number row_seq
    row_prvlg report_prd plant_name fuel fuel_unit fuel_quantity
    fuel_avg_heat fuel_cost_burned fuel_cost_delvd fuel_cost_btu
    fuel_cost_kwh fuel_generaton : Val) : Row :=
  [("respondent_id", respondent_id), ("report_year", report_year),
   ("spplmnt_num", spplmnt_num), ("row_number", row_number),
   ("row_seq", row_seq), ("row_prvlg", row_prvlg), ("report_prd", report_prd),
   ("plant_name", plant_name), ("fuel", fuel), ("fuel_unit", fuel_unit),
   ("fuel_quantity", fuel_quantity), ("fuel_avg_heat", fuel_avg_heat),
   ("fuel_cost_burned", fuel_cost_burned), ("fuel_cost_delvd", fuel_cost_delvd),
   ("fuel_cost_btu", fuel_cost_btu), ("fuel_cost_kwh", fuel_cost_kwh),
   ("fuel_generaton", fuel_generaton)]

/-- A row of the `f1_steam` table. -/
def f1SteamRow (respondent_id report_year spplmnt_num row_number row_seq
    row_prvlg report_prd plant_name type_const plant_kind yr_const
    yr_installed tot_capacity peak_demand plnt_capability when_limited
    when_not_limited avg_num_of_emp net_generation cost_per_kw expns_kwh
    cost_of_plant_to expns_steam_othr expns_engnr tot_prdctn_expns : Val) : Row :=
  [("respondent_id", respondent_id), ("report_year", report_year),
   ("spplmnt_num", spplmnt_num), ("row_number", row_number),
   ("row_seq", row_seq), ("row_prvlg", row_prvlg), ("report_prd", report_prd),
   ("plant_name", plant_name), ("type_const", type_const),
   ("plant_kind", plant_kind), ("yr_const", yr_const),
   ("yr_installed", yr_installed), ("tot_capacity", tot_capacity),
   ("peak_demand", peak_demand), ("plnt_capability", plnt_capability),
   ("when_limited", when_limited), ("when_not_limited", when_not_limited),
   ("avg_num_of_emp", avg_num_of_emp), ("net_generation", net_generation),
   ("cost_per_kw", cost_per_kw), ("expns_kwh", expns_kwh),
   ("cost_of_plant_to", cost_of_plant_to),
   ("expns_steam_othr", expns_steam_othr), ("expns_engnr", expns_engnr),
   ("tot_prdctn_expns", tot_prdctn_expns)]

/-- A row of the `f1_hydro` table. -/
def f1HydroRow (respondent_id report_year spplmnt_num row_number row_seq
    row_prvlg report_prd plant_name project_no plant_const yr_const
    yr_installed tot_capacity peak_demand plant_hours favorable_cond
    adverse_cond avg_num_of_emp cost_of_land net_generation cost_per_kw
    expns_kwh expns_engnr expns_total : Val) : Row :=
  [("respondent_id", respondent_id), ("report_year", report_year),
   ("spplmnt_num", spplmnt_num), ("row_number", row_number),
   ("row_seq", row_seq), ("row_prvlg", row_prvlg), ("report_prd", report_prd),
   ("plant_name", plant_name), ("project_no", project_no),
   ("plant_const", plant_const), ("yr_const", yr_const),
   ("yr_installed", yr_installed), ("tot_capacity", tot_capacity),
   ("peak_demand", peak_demand), ("plant_hours", plant_hours),
   ("favorable_cond", favorable_cond), ("adverse_cond", adverse_cond),
   ("avg_num_of_emp", avg_num_of_emp), ("cost_of_land", cost_of_land),
   ("net_generation", net_generation), ("cost_per_kw", cost_per_kw),
   ("expns_kwh", expns_kwh), ("expns_engnr", expns_engnr),
   ("expns_total", expns_total)]

/-- A row of the `f1_pumped_storage` table. -/
def f1PumpedStorageRow (respondent_id report_year spplmnt_num row_number
    row_seq row_prvlg report_prd plant_name project_no tot_capacity
    peak_demand plant_hours plant_capability avg_num_of_emp net_generation
    energy_used net_load cost_wheels cost_electric cost_misc_eqpmnt
    cost_of_plant cost_per_kw expns_water_pwr expns_pump_stg
    expns_misc_power expns_misc_plnt expns_producton tot_prdctn_exns
    expns_kwh : Val) : Row :=
  [("respondent_id", respondent_id), ("report_year", report_year),
   ("spplmnt_num", spplmnt_num), ("row_number", row_number),
   ("row_seq", row_seq), ("row_prvlg", row_prvlg), ("report_prd", report_prd),
   ("plant_name", plant_name), ("project_no", project_no),
   ("tot_capacity", tot_capacity), ("peak_demand", peak_demand),
   ("plant_hours", plant_hours), ("plant_capability", plant_capability),
   ("avg_num_of_emp", avg_num_of_emp), ("net_generation", net_generation),
   ("energy_used", energy_used), ("net_load", net_load),
   ("cost_wheels", cost_wheels), ("cost_electric", cost_electric),
   ("cost_misc_eqpmnt", cost_misc_eqpmnt), ("cost_of_plant", cost_of_plant),
   ("cost_per_kw", cost_per_kw), ("expns_water_pwr", expns_water_pwr),
   ("expns_pump_stg", expns_pump_stg), ("expns_misc_power", expns_misc_power),
   ("expns_misc_plnt", expns_misc_plnt), ("expns_producton", expns_producton),
   ("tot_prdctn_exns", tot_prdctn_exns), ("expns_kwh", expns_kwh)]

/-! ## Row-level description of the FERC Form 1 transforms

Each lemma pushes one arbitrary source row through the whole transform.  The
boolean hypotheses say that the row passes the SQL `WHERE` filter and (for
the transforms that call `dropna()`) that none of its surviving cells is
null. -/

theorem fuel_ferc1_row_eq (fs fus : List (List Nat × List Nat)) (ys : List ℚ)
    (ri ry sn rn rs rp rpd pn fu fuu fq fah fcb fcd fcbtu fck fg : Val)
    (hfu : Val.sqlNeEmpty fu = true)
    (hfq : Val.gtZero fq = true)
    (hpn : Val.sqlNeEmpty pn = true)
    (hry : Val.inYears ys ry = true)
    (n1 : (ri == Val.null) = false) (n2 : (ry == Val.null) = false)
    (n3 : (Val.pyTitle (Val.pyStrip pn) == Val.null) = false)
    (n4 : (cleanstrings fs Val.null fu == Val.null) = false)
    (n5 : (cleanstrings fus Val.null fuu == Val.null) = false)
    (n6 : (fq == Val.null) = false) (n7 : (fah == Val.null) = false)
    (n8 : (fcb == Val.null) = false) (n9 : (fcd == Val.null) = false)
    (n10 : (fcbtu == Val.null) = false)
    (n11 : (Val.mulC 1000 fck == Val.null) = false)
    (n12 : (Val.mulC 1000 fg == Val.null) = false) :
    ingest_fuel_ferc1 fs fus ys
      [f1FuelRow ri ry sn rn rs rp rpd pn fu fuu fq fah fcb fcd fcbtu fck fg]
    = [[("respondent_id", ri), ("report_year", ry),
        ("plant_name", Val.pyTitle (Val.pyStrip pn)),
        ("fuel", cleanstrings fs Val.null fu),
        ("fuel_unit", cleanstrings fus Val.null fuu),
        ("fuel_qty_burned", fq), ("fuel_avg_mmbtu_per_unit", fah),
        ("fuel_cost_per_unit_burned", fcb),
        ("fuel_cost_per_unit_delivered", fcd),
        ("fuel_cost_per_mmbtu", fcbtu),
        ("fuel_cost_per_mwh", Val.mulC 1000 fck),
        ("fuel_mmbtu_per_mwh", Val.mulC 1000 fg)]] := by
  simp [ingest_fuel_ferc1, f1FuelRow, DF.filterRows, DF.dropCols, DF.dropCol,
    DF.mapCol, DF.assign, DF.dropna, DF.renameCols, ferc1DropCols,
    Row.set, Row.hasCol, Row.getD, Row.get, Row.dropC, Row.anyNull, Row.rename,
    alookup, fuelFerc1Rename, hfu, hfq, hpn, hry,
    n1, n2, n3, n4, n5, n6, n7, n8, n9, n10, n11, n12]

theorem steam_row_eq (tcs pks : List (List Nat × List Nat)) (ys : List ℚ)
    (ri ry sn rn rs rp rpd pn tc pk yc yi tcap pd pcap wl wnl ae ng cpk ek
      cpt eso ee tpe : Val)
    (hng : Val.gtZero ng = true)
    (hpn : Val.sqlNeEmpty pn = true)
    (hry : Val.inYears ys ry = true) :
    ingest_plants_steam_ferc1 tcs pks ys
      [f1SteamRow ri ry sn rn rs rp rpd pn tc pk yc yi tcap pd pcap wl wnl
        ae ng cpk ek cpt eso ee tpe]
    = [[("respondent_id", ri), ("report_year", ry),
        ("plant_name", Val.pyTitle (Val.pyStrip pn)),
        ("type_const", cleanstrings tcs Val.null tc),
        ("plant_kind", cleanstrings pks Val.null pk),
        ("year_constructed", toNumericCoerce yc),
        ("year_installed", toNumericCoerce yi),
        ("total_capacity_mw", tcap), ("peak_demand_mw", pd),
        ("plant_capability_mw", pcap), ("water_limited_mw", wl),
        ("not_water_limited_mw", wnl), ("avg_num_employees", ae),
        ("cost_of_plant_total", cpt), ("expns_steam_other", eso),
        ("expns_engineering", ee), ("expns_production_total", tpe),
        ("cost_per_mw", Val.mulC 1000 cpk),
        ("net_generation_mwh", Val.mulC 1000 ng),
        ("expns_per_mwh", Val.mulC 1000 ek)]] := by
  simp [ingest_plants_steam_ferc1, f1SteamRow, DF.filterRows, DF.dropCols,
    DF.dropCol, DF.mapCol, DF.assign, DF.renameCols, ferc1DropCols,
    Row.set, Row.hasCol, Row.getD, Row.get, Row.dropC, Row.rename,
    alookup, steamFerc1Rename, hng, hpn, hry]

theorem hydro_row_eq (ys : List ℚ)
    (ri ry sn rn rs rp rpd pn pj pc yc yi tcap pd ph fc ac ae cl ng cpk ek
      ee et : Val)
    (hpn : Val.sqlNeEmpty pn = true)
    (hry : Val.inYears ys ry = true)
    (n1 : (ri == Val.null) = false) (n2 : (ry == Val.null) = false)
    (n3 : (Val.pyTitle (Val.pyStrip pn) == Val.null) = false)
    (n4 : (pj == Val.null) = false) (n5 : (pc == Val.null) = false)
    (n6 : (toNumericCoerce yc == Val.null) = false)
    (n7 : (toNumericCoerce yi == Val.null) = false)
    (n8 : (tcap == Val.null) = false) (n9 : (pd == Val.null) = false)
    (n10 : (ph == Val.null) = false) (n11 : (fc == Val.null) = false)
    (n12 : (ac == Val.null) = false) (n13 : (ae == Val.null) = false)
    (n14 : (cl == Val.null) = false)
    (n15 : (Val.divC 1000 ng == Val.null) = false)
    (n16 : (Val.mulC 1000 cpk == Val.null) = false)
    (n17 : (Val.mulC 1000 ek == Val.null) = false)
    (n18 : (ee == Val.null) = false) (n19 : (et == Val.null) = false) :
    ingest_plants_hydro_ferc1 ys
      [f1HydroRow ri ry sn rn rs rp rpd pn pj pc yc yi tcap pd ph fc ac ae cl
        ng cpk ek ee et]
    = [[("respondent_id", ri), ("report_year", ry),
        ("plant_name", Val.pyTitle (Val.pyStrip pn)),
        ("project_number", pj), ("plant_construction", pc),
        ("year_constructed", toNumericCoerce yc),
        ("year_installed", toNumericCoerce yi),
        ("total_capacity_mw", tcap), ("peak_demand_mw", pd),
        ("plant_hours_connected_while_generating", ph),
        ("net_capacity_favorable_conditions_mw", fc),
        ("net_capacity_adverse_conditions_mw", ac),
        ("avg_number_employees", ae), ("cost_land", cl),
        ("expns_engineering", ee), ("expns_production_total", et),
        ("net_generation_mwh", Val.divC 1000 ng),
        ("cost_per_mw", Val.mulC 1000 cpk),
        ("expns_per_mwh", Val.mulC 1000 ek)]] := by
  simp [ingest_plants_hydro_ferc1, f1HydroRow, DF.filterRows, DF.dropCols,
    DF.dropCol, DF.mapCol, DF.assign, DF.dropna, DF.renameCols, ferc1DropCols,
    Row.set, Row.hasCol, Row.getD, Row.get, Row.dropC, Row.anyNull, Row.rename,
    alookup, hydroFerc1Rename, hpn, hry, n1, n2, n3, n4, n5, n6, n7, n8, n9,
    n10, n11, n12, n13, n14, n15, n16, n17, n18, n19]

theorem pumped_storage_row_eq (ys : List ℚ)
    (ri ry sn rn rs rp rpd pn pj tcap pd ph pcap ae ng eu nl cw ce cme cop
      cpk ewp eps emp empl epr tpe ek : Val)
    (hpn : Val.sqlNeEmpty pn = true)
    (hry : Val.inYears ys ry = true)
    (n1 : (ri == Val.null) = false) (n2 : (ry == Val.null) = false)
    (n3 : (Val.pyTitle (Val.pyStrip pn) == Val.null) = false)
    (n4 : (pj == Val.null) = false) (n5 : (tcap == Val.null) = false)
    (n6 : (pd == Val.null) = false) (n7 : (ph == Val.null) = false)
    (n8 : (pcap == Val.null) = false) (n9 : (ae == Val.null) = false)
    (n10 : (eu == Val.null) = false) (n11 : (nl == Val.null) = false)
    (n12 : (cw == Val.null) = false) (n13 : (ce == Val.null) = false)
    (n14 : (cme == Val.null) = false) (n15 : (cop == Val.null) = false)
    (n16 : (cpk == Val.null) = false) (n17 : (ewp == Val.null) = false)
    (n18 : (eps == Val.null) = false) (n19 : (emp == Val.null) = false)
    (n20 : (empl == Val.null) = false) (n21 : (epr == Val.null) = false)
    (n22 : (tpe == Val.null) = false) (n23 : (ek == Val.null) = false)
    (n24 : (Val.divC 1000 ng == Val.null) = false) :
    ingest_plants_pumped_storage_ferc1 ys
      [f1PumpedStorageRow ri ry sn rn rs rp rpd pn pj tcap pd ph pcap ae ng
        eu nl cw ce cme cop cpk ewp eps emp empl epr tpe ek]
    = [[("respondent_id", ri), ("report_year", ry),
        ("plant_name", Val.pyTitle (Val.pyStrip pn)),
        ("project_no", pj), ("tot_capacity", tcap), ("peak_demand", pd),
        ("plant_hours", ph), ("plant_capability", pcap),
        ("avg_num_of_emp", ae), ("energy_used", eu), ("net_load", nl),
        ("cost_wheels", cw), ("cost_electric", ce),
        ("cost_misc_eqpmnt", cme), ("cost_of_plant", cop),
        ("cost_per_kw", cpk), ("expns_water_pwr", ewp),
        ("expns_pump_stg", eps), ("expns_misc_power", emp),
        ("expns_misc_plnt", empl), ("expns_producton", epr),
        ("tot_prdctn_exns", tpe), ("expns_kwh", ek),
        ("net_generation_mwh", Val.divC 1000 ng)]] := by
  simp [ingest_plants_pumped_storage_ferc1, f1PumpedStorageRow, DF.filterRows,
    DF.dropCols, DF.dropCol, DF.mapCol, DF.assign, DF.dropna, DF.renameCols,
    ferc1DropCols, Row.set, Row.hasCol, Row.getD, Row.get, Row.dropC,
    Row.anyNull, Row.rename, alookup, pumpedStorageFerc1Rename, hpn, hry,
    n1, n2, n3, n4, n5, n6, n7, n8, n9, n10, n11, n12, n13, n14, n15, n16,
    n17, n18, n19, n20, n21, n22, n23, n24]

/-! ## Claim C1 -/

/-- Simp helpers: no `Val` constructor application is null. -/
theorem num_beq_null (q : ℚ) : (Val.num q == Val.null) = false := rfl

theorem str_beq_null (l : List Nat) : (Val.str l == Val.null) = false := rfl

/-- A concrete `f1_steam` row whose `net_generation` is 1000 kWh. -/
def steamRowC1 : Row :=
  f1SteamRow (Val.num 1) (Val.num 2015) (Val.num 0) (Val.num 1) (Val.num 1)
    (Val.s "x") (Val.num 12) (Val.s "Comanche") (Val.s "conv") (Val.s "steam")
    (Val.num 1950) (Val.num 1960) (Val.num 100) (Val.num 90) (Val.num 95)
    (Val.num 80) (Val.num 85) (Val.num 20) (Val.num 1000) (Val.num 3)
    (Val.num 7) (Val.num 500) (Val.num 5) (Val.num 6) (Val.num 9)

/-- C1, counterexample: on a steam row reporting `net_generation = 1000`
(kWh), the steam transform inserts `net_generation_mwh = 1000000` — it
multiplies kWh by 1000 instead of dividing, so the claimed common
"divide kWh by 1000" rule is false for `ingest_plants_steam_ferc1`. -/
theorem C1_counterexample :
    Row.get ((ingest_plants_steam_ferc1 [] [] [2015] [steamRowC1]).headD [])
      "net_generation_mwh" = some (Val.num 1000000)
    ∧ Val.num 1000000 ≠ Val.num (1000 / 1000) := by
  constructor
  · have h := steam_row_eq [] [] [2015] (Val.num 1) (Val.num 2015) (Val.num 0)
      (Val.num 1) (Val.num 1) (Val.s "x") (Val.num 12) (Val.s "Comanche")
      (Val.s "conv") (Val.s "steam") (Val.num 1950) (Val.num 1960)
      (Val.num 100) (Val.num 90) (Val.num 95) (Val.num 80) (Val.num 85)
      (Val.num 20) (Val.num 1000) (Val.num 3) (Val.num 7) (Val.num 500)
      (Val.num 5) (Val.num 6) (Val.num 9)
      (by norm_num [Val.gtZero]) (by decide) (by norm_num [Val.inYears])
    rw [show steamRowC1 = f1SteamRow (Val.num 1) (Val.num 2015) (Val.num 0)
      (Val.num 1) (Val.num 1) (Val.s "x") (Val.num 12) (Val.s "Comanche")
      (Val.s "conv") (Val.s "steam") (Val.num 1950) (Val.num 1960)
      (Val.num 100) (Val.num 90) (Val.num 95) (Val.num 80) (Val.num 85)
      (Val.num 20) (Val.num 1000) (Val.num 3) (Val.num 7) (Val.num 500)
      (Val.num 5) (Val.num 6) (Val.num 9) from rfl, h]
    simp [List.headD, Row.get, Val.mulC]
    norm_num
  · intro h
    rw [Val.num.injEq] at h
    norm_num at h

/-- C1, amended: the two transforms do not share one net-generation rule.
On any steam row, `net_generation_mwh = 1000 * net_generation`, while on any
hydro row `net_generation_mwh = net_generation / 1000`; both transforms
multiply the per-kW cost and the per-kWh expense by 1000
(`cost_per_mw = 1000 * cost_per_kw`, `expns_per_mwh = 1000 * expns_kwh`). -/
theorem C1_amended (tcs pks : List (List Nat × List Nat)) (ys : List ℚ)
    (sn rn rs rp rpd pn tc pk pc : Val)
    (ri ry yc yi tcap pd pcap wl wnl ae cpt eso ee tpe g cpk ek : ℚ)
    (ri2 ry2 yc2 yi2 pj tcap2 pd2 ph fc ac ae2 cl g2 cpk2 ek2 ee2 et2 : ℚ)
    (hg : 0 < g)
    (hpn : Val.sqlNeEmpty pn = true)
    (hry : Val.inYears ys (Val.num ry) = true)
    (hry2 : Val.inYears ys (Val.num ry2) = true)
    (hpn3 : (Val.pyTitle (Val.pyStrip pn) == Val.null) = false)
    (hpc : (pc == Val.null) = false)
    (sOut hOut : Row)
    (hs : sOut = (ingest_plants_steam_ferc1 tcs pks ys
      [f1SteamRow (Val.num ri) (Val.num ry) sn rn rs rp rpd pn tc pk
        (Val.num yc) (Val.num yi) (Val.num tcap) (Val.num pd) (Val.num pcap)
        (Val.num wl) (Val.num wnl) (Val.num ae) (Val.num g) (Val.num cpk)
        (Val.num ek) (Val.num cpt) (Val.num eso) (Val.num ee)
        (Val.num tpe)]).headD [])
    (hh : hOut = (ingest_plants_hydro_ferc1 ys
      [f1HydroRow (Val.num ri2) (Val.num ry2) sn rn rs rp rpd pn
        (Val.num pj) pc (Val.num yc2) (Val.num yi2) (Val.num tcap2)
        (Val.num pd2) (Val.num ph) (Val.num fc) (Val.num ac) (Val.num ae2)
        (Val.num cl) (Val.num g2) (Val.num cpk2) (Val.num ek2)
        (Val.num ee2) (Val.num et2)]).headD []) :
    Row.get sOut "net_generation_mwh" = some (Val.num (1000 * g))
    ∧ Row.get hOut "net_generation_mwh" = some (Val.num (g2 / 1000))
    ∧ Row.get sOut "cost_per_mw" = some (Val.num (1000 * cpk))
    ∧ Row.get hOut "cost_per_mw" = some (Val.num (1000 * cpk2))
    ∧ Row.get sOut "expns_per_mwh" = some (Val.num (1000 * ek))
    ∧ Row.get hOut "expns_per_mwh" = some (Val.num (1000 * ek2)) := by
  rw [hs, hh]
  have hsteam := steam_row_eq tcs pks ys (Val.num ri) (Val.num ry) sn rn rs rp
    rpd pn tc pk (Val.num yc) (Val.num yi) (Val.num tcap) (Val.num pd)
    (Val.num pcap) (Val.num wl) (Val.num wnl) (Val.num ae) (Val.num g)
    (Val.num cpk) (Val.num ek) (Val.num cpt) (Val.num eso) (Val.num ee)
    (Val.num tpe) (by simp [Val.gtZero, hg]) hpn hry
  have hhydro := hydro_row_eq ys (Val.num ri2) (Val.num ry2) sn rn rs rp rpd
    pn (Val.num pj) pc (Val.num yc2) (Val.num yi2) (Val.num tcap2)
    (Val.num pd2) (Val.num ph) (Val.num fc) (Val.num ac) (Val.num ae2)
    (Val.num cl) (Val.num g2) (Val.num cpk2) (Val.num ek2) (Val.num ee2)
    (Val.num et2) hpn hry2 rfl rfl hpn3 rfl hpc rfl rfl rfl rfl rfl rfl rfl
    rfl rfl rfl rfl rfl rfl rfl
  rw [hsteam, hhydro]
  refine ⟨?_, ?_, ?_, ?_, ?_, ?_⟩ <;>
    simp [List.headD, Row.get, Val.mulC, Val.divC]

/-- Witness for C1, amended, at a concrete pair of rows
(`net_generation = 2000`, `cost_per_kw = 3`, `expns_kwh = 7`). -/
theorem C1_amended_witness :
    Row.get ((ingest_plants_steam_ferc1 [] [] [2015]
      [f1SteamRow (Val.num 1) (Val.num 2015) (Val.num 0) (Val.num 0) (Val.num 0)
        (Val.num 0) (Val.num 0) (Val.s "Foo") (Val.s "x") (Val.s "x")
        (Val.num 1950) (Val.num 1960) (Val.num 1) (Val.num 1) (Val.num 1)
        (Val.num 1) (Val.num 1) (Val.num 1) (Val.num 2000) (Val.num 3)
        (Val.num 7) (Val.num 1) (Val.num 1) (Val.num 1) (Val.num 1)]).headD [])
      "net_generation_mwh" = some (Val.num (1000 * 2000))
    ∧ Row.get ((ingest_plants_hydro_ferc1 [2015]
      [f1HydroRow (Val.num 1) (Val.num 2015) (Val.num 0) (Val.num 0) (Val.num 0)
        (Val.num 0) (Val.num 0) (Val.s "Foo") (Val.num 7) (Val.s "x")
        (Val.num 1950) (Val.num 1960) (Val.num 1) (Val.num 1) (Val.num 1)
        (Val.num 1) (Val.num 1) (Val.num 1) (Val.num 1) (Val.num 2000)
        (Val.num 3) (Val.num 7) (Val.num 1) (Val.num 1)]).headD [])
      "net_generation_mwh" = some (Val.num (2000 / 1000))
    ∧ Row.get ((ingest_plants_steam_ferc1 [] [] [2015]
      [f1SteamRow (Val.num 1) (Val.num 2015) (Val.num 0) (Val.num 0) (Val.num 0)
        (Val.num 0) (Val.num 0) (Val.s "Foo") (Val.s "x") (Val.s "x")
        (Val.num 1950) (Val.num 1960) (Val.num 1) (Val.num 1) (Val.num 1)
        (Val.num 1) (Val.num 1) (Val.num 1) (Val.num 2000) (Val.num 3)
        (Val.num 7) (Val.num 1) (Val.num 1) (Val.num 1) (Val.num 1)]).headD [])
      "cost_per_mw" = some (Val.num (1000 * 3))
    ∧ Row.get ((ingest_plants_hydro_ferc1 [2015]
      [f1HydroRow (Val.num 1) (Val.num 2015) (Val.num 0) (Val.num 0) (Val.num 0)
        (Val.num 0) (Val.num 0) (Val.s "Foo") (Val.num 7) (Val.s "x")
        (Val.num 1950) (Val.num 1960) (Val.num 1) (Val.num 1) (Val.num 1)
        (Val.num 1) (Val.num 1) (Val.num 1) (Val.num 1) (Val.num 2000)
        (Val.num 3) (Val.num 7) (Val.num 1) (Val.num 1)]).headD [])
      "cost_per_mw" = some (Val.num (1000 * 3))
    ∧ Row.get ((ingest_plants_steam_ferc1 [] [] [2015]
      [f1SteamRow (Val.num 1) (Val.num 2015) (Val.num 0) (Val.num 0) (Val.num 0)
        (Val.num 0) (Val.num 0) (Val.s "Foo") (Val.s "x") (Val.s "x")
        (Val.num 1950) (Val.num 1960) (Val.num 1) (Val.num 1) (Val.num 1)
        (Val.num 1) (Val.num 1) (Val.num 1) (Val.num 2000) (Val.num 3)
        (Val.num 7) (Val.num 1) (Val.num 1) (Val.num 1) (Val.num 1)]).headD [])
      "expns_per_mwh" = some (Val.num (1000 * 7))
    ∧ Row.get ((ingest_plants_hydro_ferc1 [2015]
      [f1HydroRow (Val.num 1) (Val.num 2015) (Val.num 0) (Val.num 0) (Val.num 0)
        (Val.num 0) (Val.num 0) (Val.s "Foo") (Val.num 7) (Val.s "x")
        (Val.num 1950) (Val.num 1960) (Val.num 1) (Val.num 1) (Val.num 1)
        (Val.num 1) (Val.num 1) (Val.num 1) (Val.num 1) (Val.num 2000)
        (Val.num 3) (Val.num 7) (Val.num 1) (Val.num 1)]).headD [])
      "expns_per_mwh" = some (Val.num (1000 * 7)) :=
  C1_amended [] [] [2015] (Val.num 0) (Val.num 0) (Val.num 0) (Val.num 0)
    (Val.num 0) (Val.s "Foo") (Val.s "x") (Val.s "x") (Val.s "x")
    1 2015 1950 1960 1 1 1 1 1 1 1 1 1 1 2000 3 7
    1 2015 1950 1960 7 1 1 1 1 1 1 1 2000 3 7 1 1
    (by norm_num) (by decide) (by norm_num [Val.inYears])
    (by norm_num [Val.inYears]) (by decide) rfl _ _ rfl rfl

/-! ## Claim C10 -/

/-- C10: the name `f1_gnrt_plant` is bound neither among the locals of
`ingest_plants_small_ferc1` nor at module level, so every invocation raises
`NameError` while building the SELECT statement — before any source read or
any insert into `plants_small_ferc1`. -/
theorem C10_name_error :
    pudlModuleGlobals.contains "f1_gnrt_plant" = false
    ∧ ingest_plants_small_ferc1 = Except.error PyErr.nameError := by
  constructor
  · decide
  · rfl

/-! ## Claim C5 -/

/-- A concrete `f1_pumped_storage` row: `energy_used = 3000` kWh,
`net_load = 4000` kWh, `cost_per_kw = 5`, `expns_kwh = 7`,
`net_generation = 2000` kWh. -/
def pumpedRowC5 : Row :=
  f1PumpedStorageRow (Val.num 1) (Val.num 2015) (Val.num 0) (Val.num 1)
    (Val.num 1) (Val.s "x") (Val.num 12) (Val.s "Bath County") (Val.num 7)
    (Val.num 100) (Val.num 90) (Val.num 8000) (Val.num 95) (Val.num 20)
    (Val.num 2000) (Val.num 3000) (Val.num 4000) (Val.num 11) (Val.num 12)
    (Val.num 13) (Val.num 14) (Val.num 5) (Val.num 15) (Val.num 16)
    (Val.num 17) (Val.num 18) (Val.num 19) (Val.num 21) (Val.num 7)

/-- The row the pumped-storage transform inserts for `pumpedRowC5`. -/
def pumpedOutC5 : Row :=
  (ingest_plants_pumped_storage_ferc1 [2015] [pumpedRowC5]).headD []

/-- C5: the pumped-storage transform drops each converted column right after
creating it (it drops the new name instead of the raw one) and its final
`rename` lacks `inplace=True`, so the inserted row has none of
`energy_used_for_pumping_mwh`, `net_load_mwh`, `cost_per_mw`,
`expns_per_mwh`, and still carries the raw columns `energy_used`,
`net_load`, `cost_per_kw`, `expns_kwh` under their FERC names with
unconverted values. -/
theorem C5_theorem :
    Row.get pumpedOutC5 "energy_used_for_pumping_mwh" = none
    ∧ Row.get pumpedOutC5 "net_load_mwh" = none
    ∧ Row.get pumpedOutC5 "cost_per_mw" = none
    ∧ Row.get pumpedOutC5 "expns_per_mwh" = none
    ∧ Row.get pumpedOutC5 "energy_used" = some (Val.num 3000)
    ∧ Row.get pumpedOutC5 "net_load" = some (Val.num 4000)
    ∧ Row.get pumpedOutC5 "cost_per_kw" = some (Val.num 5)
    ∧ Row.get pumpedOutC5 "expns_kwh" = some (Val.num 7) := by
  have h := pumped_storage_row_eq [2015] (Val.num 1) (Val.num 2015) (Val.num 0)
    (Val.num 1) (Val.num 1) (Val.s "x") (Val.num 12) (Val.s "Bath County")
    (Val.num 7) (Val.num 100) (Val.num 90) (Val.num 8000) (Val.num 95)
    (Val.num 20) (Val.num 2000) (Val.num 3000) (Val.num 4000) (Val.num 11)
    (Val.num 12) (Val.num 13) (Val.num 14) (Val.num 5) (Val.num 15)
    (Val.num 16) (Val.num 17) (Val.num 18) (Val.num 19) (Val.num 21)
    (Val.num 7) (by decide) (by norm_num [Val.inYears]) rfl rfl (by decide)
    rfl rfl rfl rfl rfl rfl rfl rfl rfl rfl rfl rfl rfl rfl rfl rfl rfl rfl
    rfl rfl rfl
  simp only [pumpedOutC5, pumpedRowC5, h]
  refine ⟨?_, ?_, ?_, ?_, ?_, ?_, ?_, ?_⟩ <;> simp [Row.get, List.headD]

/-! ## Claim C9 -/

/-- The frame a list of `to_sql` inserts writes into a given table. -/
def tableInsert (l : List (String × DF)) (t : String) : DF :=
  (List.lookup t l).getD []

theorem Row.get_replaceVal (r : Row) (a b : Val) (c : String) :
    Row.get (List.map (fun p : String × Val => (p.1, if p.2 = a then b else p.2)) r) c
      = (Row.get r c).map (fun v => if v = a then b else v) := by
  induction r with
  | nil => rfl
  | cons p t ih =>
      obtain ⟨k, v⟩ := p
      by_cases hk : k = c
      · simp [Row.get, hk]
      · simp only [List.map_cons, Row.get, hk, if_false]
        exact ih

/-- EIA 923 pages for the C9 instances: a `plant_frame` page holding a
"State fuel-level increment" record (`plant_id = 99999`), and a
`fuel_receipts_costs` page holding a `plant_id = 99999` record. -/
def eia923PagesC9 : String → DF := fun page =>
  if page = "plant_frame" then
    [[("plant_id", Val.num 99999), ("plant_state", Val.s "CO"),
      ("combined_heat_and_power_status", Val.s "N"),
      ("sector_number", Val.num 1), ("naics_code", Val.num 22),
      ("reporting_frequency", Val.s "M")]]
  else if page = "fuel_receipts_costs" then
    [[("plant_id", Val.num 99999), ("purchase_type", Val.s "C"),
      ("quantity", Val.num 10), ("fuel_cost", Val.num 3),
      ("coalmine_name", Val.s "m"), ("coalmine_type", Val.s "S"),
      ("coalmine_state", Val.s "CO"), ("coalmine_county", Val.s "c"),
      ("coalmine_msha_id", Val.num 1)]]
  else []

/-- Shared helper: a `plant_frame` record with `plant_id = 99999` survives
into the `plant_info_eia923` frame, because the 99999 filter is applied only
to the `generation_fuel` side of the outer merge. -/
theorem plant_info_keeps_99999 :
    (ingest_plant_info_eia923 eia923PagesC9).any
      (fun r => Row.get r "plant_id" == some (Val.num 99999)) = true := by
  simp [ingest_plant_info_eia923, eia923PagesC9, plantFrameCols,
    genFuelInfoCols, DF.selectCols, DF.filterRows, DF.dropDuplicates,
    DF.dropDup, dupKey, mergeOuter, DF.mapCol, DF.renameCols, Row.getD,
    Row.get, Row.set, Row.hasCol, Row.dropC, Row.rename, alookup, ynToBool,
    List.any, List.lookup]

/-- C9, counterexample: a row with `plant_id = 99999` IS inserted into
`plant_info_eia923` when the placeholder record appears on the
`plant_frame` page, so the claim "no row inserted into `plant_info_eia923`
has `plant_id = 99999`" is false. -/
theorem C9_counterexample :
    (ingest_plant_info_eia923 eia923PagesC9).any
      (fun r => Row.get r "plant_id" == some (Val.num 99999)) = true :=
  plant_info_keeps_99999

/-- C9, amended: `generation_fuel_eia923` never receives a
`plant_id = 99999` row and `fuel_receipts_costs_eia923` never receives a
`plant_id = 8899` row; `fuel_receipts_costs_eia923` does not exclude 99999;
but `plant_info_eia923` excludes 99999 only from the `generation_fuel` side
of its outer merge, and a `plant_frame` record with `plant_id = 99999`
still reaches `plant_info_eia923`. -/
theorem C9_amended :
    (∀ (y2m : DF → DF) (pages : String → DF) (r : Row),
      r ∈ ingest_generation_fuel_eia923 y2m pages →
        ¬(Row.get r "plant_id" = some (Val.num 99999)))
    ∧ (∀ (pages : String → DF) (r : Row),
      r ∈ tableInsert (ingest_fuel_receipts_costs_eia923 pages)
          "fuel_receipts_costs_eia923" →
        ¬(Row.get r "plant_id" = some (Val.num 8899)))
    ∧ (tableInsert (ingest_fuel_receipts_costs_eia923 eia923PagesC9)
        "fuel_receipts_costs_eia923").any
        (fun r => Row.get r "plant_id" == some (Val.num 99999)) = true
    ∧ (ingest_plant_info_eia923 eia923PagesC9).any
        (fun r => Row.get r "plant_id" == some (Val.num 99999)) = true := by
  refine ⟨?_, ?_, ?_, plant_info_keeps_99999⟩
  · intro y2m pages r hr hcontra
    simp only [ingest_generation_fuel_eia923, DF.renameCols, DF.filterRows] at hr
    obtain ⟨r1, hr1, rfl⟩ := List.mem_map.mp hr
    obtain ⟨hmem, hp⟩ := List.mem_filter.mp hr1
    rw [Row.get_rename_fixed _ _ _ (by decide) (by decide)] at hcontra
    rw [bne_iff_ne] at hp
    apply hp
    rw [Row.getD, hcontra]
    rfl
  · intro pages r hr hcontra
    simp only [ingest_fuel_receipts_costs_eia923, tableInsert, List.lookup,
      DF.renameCols, DF.replaceVal, DF.filterRows] at hr
    rw [show (("fuel_receipts_costs_eia923" : String) == "coalmine_info_eia923")
      = false from by decide] at hr
    rw [show (("fuel_receipts_costs_eia923" : String)
      == "fuel_receipts_costs_eia923") = true from by decide] at hr
    simp only [Option.getD_some] at hr
    obtain ⟨r2, hr2, rfl⟩ := List.mem_map.mp hr
    obtain ⟨r1, hr1, rfl⟩ := List.mem_map.mp hr2
    obtain ⟨hmem, hp⟩ := List.mem_filter.mp hr1
    rw [Row.get_rename_fixed _ _ _ (by decide) (by decide),
      Row.get_replaceVal] at hcontra
    rw [bne_iff_ne] at hp
    cases hg : Row.get r1 "plant_id" with
    | none => rw [hg] at hcontra; simp at hcontra
    | some v =>
        rw [hg] at hcontra
        simp only [Option.map_some', Option.some.injEq] at hcontra
        by_cases hv : v = Val.s "."
        · rw [if_pos hv] at hcontra
          simp [Val.s, codes] at hcontra
        · rw [if_neg hv] at hcontra
          apply hp
          rw [Row.getD, hg, hcontra]
          rfl
  · simp [ingest_fuel_receipts_costs_eia923, eia923PagesC9, tableInsert,
      coalmineColsList, frcDropColsList, DF.selectCols, DF.filterRows,
      DF.dropCols, DF.dropCol, DF.replaceVal, DF.renameCols, Row.getD,
      Row.get, Row.dropC, Row.rename, alookup, List.any, List.lookup,
      Val.s, codes]

/-- EIA 923 pages used to instantiate the C9 witness (string-valued ids keep
the rows away from both filters). -/
def eia923PagesC9w : String → DF := fun page =>
  if page = "generation_fuel" then [[("plant_id", Val.s "p5")]]
  else if page = "fuel_receipts_costs" then [[("plant_id", Val.s "p5")]]
  else []

/-- Witness for C9, amended: the universally quantified parts applied at a
concrete page set and row. -/
theorem C9_amended_witness :
    ¬(Row.get [("plant_id", Val.s "p5")] "plant_id" = some (Val.num 99999))
    ∧ ¬(Row.get [("plant_id", Val.s "p5")] "plant_id" = some (Val.num 8899)) := by
  constructor
  · exact C9_amended.1 id eia923PagesC9w [("plant_id", Val.s "p5")] (by decide)
  · exact C9_amended.2.1 eia923PagesC9w [("plant_id", Val.s "p5")] (by decide)

/-! ## Claim C3 -/

/-- EIA 923 pages for the C3 instances: a `fuel_receipts_costs` page whose
single record has a null `coalmine_name`, plus one boiler and one generator
record. -/
def eia923PagesC3 : String → DF := fun page =>
  if page = "fuel_receipts_costs" then
    [[("coalmine_name", Val.null), ("coalmine_type", Val.s "S"),
      ("coalmine_state", Val.s "CO"), ("coalmine_county", Val.s "c"),
      ("coalmine_msha_id", Val.s "m1"), ("plant_id", Val.s "p1")]]
  else if page = "boiler_fuel" then
    [[("plant_id", Val.s "p1"), ("boiler_id", Val.s "b1"),
      ("reported_prime_mover", Val.s "ST")]]
  else if page = "generator" then
    [[("plant_id", Val.s "p1"), ("generator_id", Val.s "g1"),
      ("reported_prime_mover", Val.s "ST")]]
  else []

/-- Shared helper: a fuel-receipts record whose `coalmine_name` is null is
nevertheless written to `coalmine_info_eia923` — the
`dropna(subset=['coalmine_name'])` call is commented out in the source. -/
theorem coalmine_null_inserted :
    (tableInsert (ingest_fuel_receipts_costs_eia923 eia923PagesC3)
      "coalmine_info_eia923").any
      (fun r => Row.isna r "coalmine_name") = true := by
  decide

/-- C3, counterexample: a coalmine row missing its `coalmine_name` key IS
inserted into `coalmine_info_eia923`, so the claim that rows missing
required keys are never inserted is false for the coalmine transform. -/
theorem C3_counterexample :
    (tableInsert (ingest_fuel_receipts_costs_eia923 eia923PagesC3)
      "coalmine_info_eia923").any
      (fun r => Row.isna r "coalmine_name") = true :=
  coalmine_null_inserted

/-- C3, amended: boiler rows missing `boiler_id`/`plant_id` and generator
rows missing `generator_id`/`plant_id` are dropped before insertion, but
coalmine rows missing `coalmine_name` are inserted into
`coalmine_info_eia923` (the dropna is commented out). -/
theorem C3_amended :
    (∀ (y2m : DF → DF) (pages : String → DF) (r : Row),
      r ∈ tableInsert (ingest_boiler_fuel_eia923 y2m pages) "boilers_eia923" →
        Row.isna r "boiler_id" = false ∧ Row.isna r "plant_id" = false)
    ∧ (∀ (y2m : DF → DF) (pages : String → DF) (r : Row),
      r ∈ tableInsert (ingest_generator_eia923 y2m pages) "generators_eia923" →
        Row.isna r "generator_id" = false ∧ Row.isna r "plant_id" = false)
    ∧ (tableInsert (ingest_fuel_receipts_costs_eia923 eia923PagesC3)
        "coalmine_info_eia923").any
        (fun r => Row.isna r "coalmine_name") = true := by
  refine ⟨?_, ?_, coalmine_null_inserted⟩
  · intro y2m pages r hr
    simp only [ingest_boiler_fuel_eia923, tableInsert, List.lookup,
      DF.dropnaSubset] at hr
    rw [show (("boilers_eia923" : String) == "boilers_eia923") = true
      from by decide] at hr
    simp only [Option.getD_some] at hr
    have hp := (List.mem_filter.mp hr).2
    simp only [List.all_cons, List.all_nil, Bool.and_true, Bool.and_eq_true,
      Bool.not_eq_true'] at hp
    exact hp
  · intro y2m pages r hr
    simp only [ingest_generator_eia923, tableInsert, List.lookup,
      DF.dropnaSubset] at hr
    rw [show (("generators_eia923" : String) == "generators_eia923") = true
      from by decide] at hr
    simp only [Option.getD_some] at hr
    have hp := (List.mem_filter.mp hr).2
    simp only [List.all_cons, List.all_nil, Bool.and_true, Bool.and_eq_true,
      Bool.not_eq_true'] at hp
    exact hp

/-- Witness for C3, amended, at a concrete page set and its surviving
boiler/generator rows. -/
theorem C3_amended_witness :
    (Row.isna [("plant_id", Val.s "p1"), ("boiler_id", Val.s "b1"),
        ("prime_mover", Val.s "ST")] "boiler_id" = false
      ∧ Row.isna [("plant_id", Val.s "p1"), ("boiler_id", Val.s "b1"),
        ("prime_mover", Val.s "ST")] "plant_id" = false)
    ∧ (Row.isna [("plant_id", Val.s "p1"), ("generator_id", Val.s "g1"),
        ("prime_mover", Val.s "ST")] "generator_id" = false
      ∧ Row.isna [("plant_id", Val.s "p1"), ("generator_id", Val.s "g1"),
        ("prime_mover", Val.s "ST")] "plant_id" = false) := by
  constructor
  · exact C3_amended.1 id eia923PagesC3
      [("plant_id", Val.s "p1"), ("boiler_id", Val.s "b1"),
       ("prime_mover", Val.s "ST")] (by decide)
  · exact C3_amended.2.1 id eia923PagesC3
      [("plant_id", Val.s "p1"), ("generator_id", Val.s "g1"),
       ("prime_mover", Val.s "ST")] (by decide)

/-! ## Claim C2 -/

/-- C2: a free-text category value matching no entry of the static lookup
table (1) becomes null at the `cleanstrings` mapping stage, (2) is inserted
as null — never as the unchanged string — in `type_const`/`plant_kind` by
the steam transform, and (3) in the fuel transform the nulled `fuel` cell
makes the whole row fall to `dropna()`, so no row with an unmapped fuel
string is ever inserted. -/
theorem C2_unmapped_null :
    (∀ (tbl : List (List Nat × List Nat)) (s : List Nat),
      lookupCodes tbl s = none →
        cleanstrings tbl Val.null (Val.str s) = Val.null)
    ∧ (∀ (tcs pks : List (List Nat × List Nat)) (ys : List ℚ)
        (sn rn rs rp rpd pn : Val) (tcS pkS : List Nat)
        (ri ry yc yi tcap pd pcap wl wnl ae g cpk ek cpt eso ee tpe : ℚ),
      lookupCodes tcs tcS = none → lookupCodes pks pkS = none →
      0 < g → Val.sqlNeEmpty pn = true → Val.inYears ys (Val.num ry) = true →
      Row.get ((ingest_plants_steam_ferc1 tcs pks ys
        [f1SteamRow (Val.num ri) (Val.num ry) sn rn rs rp rpd pn
          (Val.str tcS) (Val.str pkS) (Val.num yc) (Val.num yi) (Val.num tcap)
          (Val.num pd) (Val.num pcap) (Val.num wl) (Val.num wnl) (Val.num ae)
          (Val.num g) (Val.num cpk) (Val.num ek) (Val.num cpt) (Val.num eso)
          (Val.num ee) (Val.num tpe)]).headD []) "type_const" = some Val.null
      ∧ Row.get ((ingest_plants_steam_ferc1 tcs pks ys
        [f1SteamRow (Val.num ri) (Val.num ry) sn rn rs rp rpd pn
          (Val.str tcS) (Val.str pkS) (Val.num yc) (Val.num yi) (Val.num tcap)
          (Val.num pd) (Val.num pcap) (Val.num wl) (Val.num wnl) (Val.num ae)
          (Val.num g) (Val.num cpk) (Val.num ek) (Val.num cpt) (Val.num eso)
          (Val.num ee) (Val.num tpe)]).headD []) "plant_kind" = some Val.null)
    ∧ (∀ (fs fus : List (List Nat × List Nat)) (ys : List ℚ)
        (sn rn rs rp rpd pn fuu fah fcb fcd fcbtu fck fg : Val)
        (fuS : List Nat) (ri ry fq : ℚ),
      lookupCodes fs fuS = none →
      Val.sqlNeEmpty (Val.str fuS) = true → 0 < fq →
      Val.sqlNeEmpty pn = true → Val.inYears ys (Val.num ry) = true →
      ingest_fuel_ferc1 fs fus ys
        [f1FuelRow (Val.num ri) (Val.num ry) sn rn rs rp rpd pn (Val.str fuS)
          fuu (Val.num fq) fah fcb fcd fcbtu fck fg] = []) := by
  refine ⟨?_, ?_, ?_⟩
  · intro tbl s h
    simp [cleanstrings, h]
  · intro tcs pks ys sn rn rs rp rpd pn tcS pkS ri ry yc yi tcap pd pcap wl
      wnl ae g cpk ek cpt eso ee tpe hltc hlpk hg hpn hry
    have h := steam_row_eq tcs pks ys (Val.num ri) (Val.num ry) sn rn rs rp
      rpd pn (Val.str tcS) (Val.str pkS) (Val.num yc) (Val.num yi)
      (Val.num tcap) (Val.num pd) (Val.num pcap) (Val.num wl) (Val.num wnl)
      (Val.num ae) (Val.num g) (Val.num cpk) (Val.num ek) (Val.num cpt)
      (Val.num eso) (Val.num ee) (Val.num tpe)
      (by simp [Val.gtZero, hg]) hpn hry
    rw [h]
    constructor <;> simp [Row.get, List.headD, cleanstrings, hltc, hlpk]
  · intro fs fus ys sn rn rs rp rpd pn fuu fah fcb fcd fcbtu fck fg fuS ri ry
      fq hlfu hfu hfq hpn hry
    simp [ingest_fuel_ferc1, f1FuelRow, DF.filterRows, DF.dropCols,
      DF.dropCol, DF.mapCol, DF.assign, DF.dropna, DF.renameCols,
      ferc1DropCols, Row.set, Row.hasCol, Row.getD, Row.get, Row.dropC,
      Row.anyNull, Row.rename, alookup, cleanstrings, hlfu, hfu, hpn, hry,
      Val.gtZero, hfq]

/-- Witness for C2 at a concrete lookup table and concrete rows: the table
maps only "coal", and the value "wind" is unmapped. -/
theorem C2_unmapped_null_witness :
    cleanstrings [(codes "coal", codes "coal")] Val.null (Val.s "wind")
      = Val.null
    ∧ Row.get ((ingest_plants_steam_ferc1 [(codes "coal", codes "coal")]
        [(codes "coal", codes "coal")] [2015]
        [f1SteamRow (Val.num 1) (Val.num 2015) (Val.num 0) (Val.num 0)
          (Val.num 0) (Val.num 0) (Val.num 0) (Val.s "Foo")
          (Val.str (codes "wind")) (Val.str (codes "wind")) (Val.num 1950)
          (Val.num 1960) (Val.num 1) (Val.num 1) (Val.num 1) (Val.num 1)
          (Val.num 1) (Val.num 1) (Val.num 2000) (Val.num 3) (Val.num 7)
          (Val.num 1) (Val.num 1) (Val.num 1) (Val.num 1)]).headD [])
        "type_const" = some Val.null
    ∧ ingest_fuel_ferc1 [(codes "coal", codes "coal")]
        [(codes "coal", codes "coal")] [2015]
        [f1FuelRow (Val.num 1) (Val.num 2015) (Val.num 0) (Val.num 0)
          (Val.num 0) (Val.num 0) (Val.num 0) (Val.s "Foo")
          (Val.str (codes "wind")) (Val.s "tons") (Val.num 10) (Val.num 1)
          (Val.num 1) (Val.num 1) (Val.num 1) (Val.num 1) (Val.num 1)] = [] := by
  refine ⟨?_, ?_, ?_⟩
  · exact C2_unmapped_null.1 [(codes "coal", codes "coal")] (codes "wind")
      (by decide)
  · exact (C2_unmapped_null.2.1 [(codes "coal", codes "coal")]
      [(codes "coal", codes "coal")] [2015] (Val.num 0) (Val.num 0)
      (Val.num 0) (Val.num 0) (Val.num 0) (Val.s "Foo") (codes "wind")
      (codes "wind") 1 2015 1950 1960 1 1 1 1 1 1 2000 3 7 1 1 1 1
      (by decide) (by decide) (by norm_num) (by decide)
      (by norm_num [Val.inYears])).1
  · exact C2_unmapped_null.2.2 [(codes "coal", codes "coal")]
      [(codes "coal", codes "coal")] [2015] (Val.num 0) (Val.num 0)
      (Val.num 0) (Val.num 0) (Val.num 0) (Val.s "Foo") (Val.s "tons")
      (Val.num 1) (Val.num 1) (Val.num 1) (Val.num 1) (Val.num 1) (Val.num 1)
      (codes "wind") 1 2015 10 (by decide) (by decide) (by norm_num)
      (by decide) (by norm_num [Val.inYears])

/-! ## Claim C4 -/

/-- C4: a construction/installation-year value that does not parse as a
number is coerced to null.  In the steam transform the row is inserted with
null `year_constructed`/`year_installed`; in the hydro transform the
coerced null then makes the row fall to `dropna()` — in both cases the
transform returns normally instead of failing. -/
theorem C4_coerce_null :
    (∀ s : List Nat, parseNumCodes s = none →
      toNumericCoerce (Val.str s) = Val.null)
    ∧ (∀ (tcs pks : List (List Nat × List Nat)) (ys : List ℚ)
        (sn rn rs rp rpd pn tc pk : Val) (s1 s2 : List Nat)
        (ri ry tcap pd pcap wl wnl ae g cpk ek cpt eso ee tpe : ℚ),
      parseNumCodes s1 = none → parseNumCodes s2 = none →
      0 < g → Val.sqlNeEmpty pn = true → Val.inYears ys (Val.num ry) = true →
      Row.get ((ingest_plants_steam_ferc1 tcs pks ys
        [f1SteamRow (Val.num ri) (Val.num ry) sn rn rs rp rpd pn tc pk
          (Val.str s1) (Val.str s2) (Val.num tcap) (Val.num pd)
          (Val.num pcap) (Val.num wl) (Val.num wnl) (Val.num ae) (Val.num g)
          (Val.num cpk) (Val.num ek) (Val.num cpt) (Val.num eso) (Val.num ee)
          (Val.num tpe)]).headD []) "year_constructed" = some Val.null
      ∧ Row.get ((ingest_plants_steam_ferc1 tcs pks ys
        [f1SteamRow (Val.num ri) (Val.num ry) sn rn rs rp rpd pn tc pk
          (Val.str s1) (Val.str s2) (Val.num tcap) (Val.num pd)
          (Val.num pcap) (Val.num wl) (Val.num wnl) (Val.num ae) (Val.num g)
          (Val.num cpk) (Val.num ek) (Val.num cpt) (Val.num eso) (Val.num ee)
          (Val.num tpe)]).headD []) "year_installed" = some Val.null)
    ∧ (∀ (ys : List ℚ) (sn rn rs rp rpd pn pc yi : Val) (s1 : List Nat)
        (ri ry pj tcap pd ph fc ac ae cl g cpk ek ee et : ℚ),
      parseNumCodes s1 = none →
      Val.sqlNeEmpty pn = true → Val.inYears ys (Val.num ry) = true →
      ingest_plants_hydro_ferc1 ys
        [f1HydroRow (Val.num ri) (Val.num ry) sn rn rs rp rpd pn (Val.num pj)
          pc (Val.str s1) yi (Val.num tcap) (Val.num pd) (Val.num ph)
          (Val.num fc) (Val.num ac) (Val.num ae) (Val.num cl) (Val.num g)
          (Val.num cpk) (Val.num ek) (Val.num ee) (Val.num et)] = []) := by
  refine ⟨?_, ?_, ?_⟩
  · intro s h
    simp [toNumericCoerce, h]
  · intro tcs pks ys sn rn rs rp rpd pn tc pk s1 s2 ri ry tcap pd pcap wl wnl
      ae g cpk ek cpt eso ee tpe h1 h2 hg hpn hry
    have h := steam_row_eq tcs pks ys (Val.num ri) (Val.num ry) sn rn rs rp
      rpd pn tc pk (Val.str s1) (Val.str s2) (Val.num tcap) (Val.num pd)
      (Val.num pcap) (Val.num wl) (Val.num wnl) (Val.num ae) (Val.num g)
      (Val.num cpk) (Val.num ek) (Val.num cpt) (Val.num eso) (Val.num ee)
      (Val.num tpe) (by simp [Val.gtZero, hg]) hpn hry
    rw [h]
    constructor <;> simp [Row.get, List.headD, toNumericCoerce, h1, h2]
  · intro ys sn rn rs rp rpd pn pc yi s1 ri ry pj tcap pd ph fc ac ae cl g
      cpk ek ee et h1 hpn hry
    simp [ingest_plants_hydro_ferc1, f1HydroRow, DF.filterRows, DF.dropCols,
      DF.dropCol, DF.mapCol, DF.assign, DF.dropna, DF.renameCols,
      ferc1DropCols, Row.set, Row.hasCol, Row.getD, Row.get, Row.dropC,
      Row.anyNull, Row.rename, alookup, toNumericCoerce, h1, hpn, hry]

/-- Witness for C4 at the concrete junk year string "junk". -/
theorem C4_coerce_null_witness :
    toNumericCoerce (Val.str (codes "junk")) = Val.null
    ∧ Row.get ((ingest_plants_steam_ferc1 [] [] [2015]
        [f1SteamRow (Val.num 1) (Val.num 2015) (Val.num 0) (Val.num 0)
          (Val.num 0) (Val.num 0) (Val.num 0) (Val.s "Foo") (Val.s "c")
          (Val.s "k") (Val.str (codes "junk")) (Val.str (codes "junk"))
          (Val.num 1) (Val.num 1) (Val.num 1) (Val.num 1) (Val.num 1)
          (Val.num 1) (Val.num 2000) (Val.num 3) (Val.num 7) (Val.num 1)
          (Val.num 1) (Val.num 1) (Val.num 1)]).headD [])
        "year_constructed" = some Val.null
    ∧ ingest_plants_hydro_ferc1 [2015]
        [f1HydroRow (Val.num 1) (Val.num 2015) (Val.num 0) (Val.num 0)
          (Val.num 0) (Val.num 0) (Val.num 0) (Val.s "Foo") (Val.num 7)
          (Val.s "c") (Val.str (codes "junk")) (Val.num 1960) (Val.num 1)
          (Val.num 1) (Val.num 1) (Val.num 1) (Val.num 1) (Val.num 1)
          (Val.num 1) (Val.num 2000) (Val.num 3) (Val.num 7) (Val.num 1)
          (Val.num 1)] = [] := by
  refine ⟨?_, ?_, ?_⟩
  · exact C4_coerce_null.1 (codes "junk") (by decide)
  · exact (C4_coerce_null.2.1 [] [] [2015] (Val.num 0) (Val.num 0)
      (Val.num 0) (Val.num 0) (Val.num 0) (Val.s "Foo") (Val.s "c")
      (Val.s "k") (codes "junk") (codes "junk") 1 2015 1 1 1 1 1 1 2000 3 7
      1 1 1 1 (by decide) (by decide) (by norm_num) (by decide)
      (by norm_num [Val.inYears])).1
  · exact C4_coerce_null.2.2 [2015] (Val.num 0) (Val.num 0) (Val.num 0)
      (Val.num 0) (Val.num 0) (Val.s "Foo") (Val.s "c") (Val.num 1960)
      (codes "junk") 1 2015 7 1 1 1 1 1 1 1 2000 3 7 1 1 (by decide)
      (by decide) (by norm_num [Val.inYears])

/-! ## Claims C6 and C7 -/

/-- `runSteps` only ever appends to the operation trace it is given. -/
theorem runSteps_ops_extend (steps : List (Except PyErr (List (String × DF))))
    (db : PudlDB) (ops : List DbOp) :
    ∃ rest, (runSteps steps db ops).ops = ops ++ rest := by
  induction steps generalizing db ops with
  | nil => exact ⟨[], by simp [runSteps]⟩
  | cons s rest ih =>
      cases s with
      | error e => exact ⟨[], by simp [runSteps]⟩
      | ok inserts =>
          obtain ⟨r2, hr2⟩ := ih (db.insertAll inserts)
            (ops ++ inserts.map (fun p => DbOp.insert p.1))
          exact ⟨inserts.map (fun p => DbOp.insert p.1) ++ r2,
            by rw [runSteps, hr2, List.append_assoc]⟩

/-- C6: with `debug=False`, `init_db` ends in an `AssertionError` with the
database untouched and no database operation performed exactly when some
requested FERC 1 table is missing from the working or PUDL list, or some
requested EIA 923 table is missing from the EIA 923 PUDL list; with
`debug=True` the run always proceeds past the checks into the
drop/create/ingest pipeline. -/
theorem C6_assert_iff (wt pt et schema ferc1_tables : List String)
    (ferc1_years : List ℚ) (eia923_tables : List String) (src : Sources)
    (db : PudlDB) :
    (init_db wt pt et schema ferc1_tables ferc1_years eia923_tables false src
        db = ⟨some PyErr.assertionError, db, []⟩
      ↔ (∃ t ∈ ferc1_tables, t ∉ wt ∨ t ∉ pt)
        ∨ (∃ t ∈ eia923_tables, t ∉ et))
    ∧ ∃ rest, (init_db wt pt et schema ferc1_tables ferc1_years eia923_tables
        true src db).ops = DbOp.dropAll :: DbOp.createAll :: rest := by
  have htrue : configOk wt pt et ferc1_tables eia923_tables = true
      ↔ (∀ t ∈ ferc1_tables, t ∈ wt ∧ t ∈ pt) ∧ ∀ t ∈ eia923_tables, t ∈ et := by
    simp [configOk, List.all_eq_true]
  have hconfig : configOk wt pt et ferc1_tables eia923_tables = false
      ↔ (∃ t ∈ ferc1_tables, t ∉ wt ∨ t ∉ pt)
        ∨ (∃ t ∈ eia923_tables, t ∉ et) := by
    rw [← Bool.not_eq_true, htrue, not_and_or]
    simp only [not_forall, not_and_or, exists_prop]
  constructor
  · by_cases hc : configOk wt pt et ferc1_tables eia923_tables = true
    · rw [init_db]
      rw [show ((!false && !(configOk wt pt et ferc1_tables eia923_tables))
        = false) from by simp [hc]]
      simp only [Bool.false_eq_true, if_false]
      constructor
      · intro h
        obtain ⟨rest, hrest⟩ := runSteps_ops_extend _ _ [DbOp.dropAll, DbOp.createAll]
        rw [h] at hrest
        simp at hrest
      · intro h
        rw [← hconfig] at h
        rw [hc] at h
        simp at h
    · have hc' : configOk wt pt et ferc1_tables eia923_tables = false := by
        simpa using hc
      rw [init_db]
      rw [show ((!false && !(configOk wt pt et ferc1_tables eia923_tables))
        = true) from by simp [hc']]
      simp only [if_true]
      constructor
      · intro _
        exact hconfig.mp hc'
      · intro _
        trivial
  · rw [init_db]
    rw [show ((!true && !(configOk wt pt et ferc1_tables eia923_tables))
      = false) from by simp]
    simp only [Bool.false_eq_true, if_false]
    exact runSteps_ops_extend _ _ [DbOp.dropAll, DbOp.createAll]

/-- C7: once the configuration check is passed (or skipped via
`debug=True`), the whole result of `init_db` — final database content,
outcome, and operation trace — does not depend on the prior state of the
destination database: the run starts by dropping every PUDL table and
recreating the schema empty. -/
theorem C7_db_independent (wt pt et schema ferc1_tables : List String)
    (ferc1_years : List ℚ) (eia923_tables : List String) (debug : Bool)
    (src : Sources) (db1 db2 : PudlDB)
    (h : configOk wt pt et ferc1_tables eia923_tables = true ∨ debug = true) :
    init_db wt pt et schema ferc1_tables ferc1_years eia923_tables debug src
        db1
      = init_db wt pt et schema ferc1_tables ferc1_years eia923_tables debug
        src db2 := by
  rcases h with h | h
  · rw [init_db, init_db, h]
    simp [drop_tables_pudl]
  · rw [init_db, init_db, h]
    simp [drop_tables_pudl]

/-- A trivial, fully concrete source bundle. -/
def trivialSources : Sources :=
  ⟨fun _ => [], fun _ => [], [], [], [], [], [], [], [], [], [], id⟩

/-- Witness for C7 at concrete parameters: two different initial databases
give the same run result. -/
theorem C7_db_independent_witness :
    init_db [] [] [] [] [] [] [] false trivialSources
        ⟨[("plants", [[("id", Val.num 1)]])]⟩
      = init_db [] [] [] [] [] [] [] false trivialSources ⟨[]⟩ :=
  C7_db_independent [] [] [] [] [] [] [] false trivialSources
    ⟨[("plants", [[("id", Val.num 1)]])]⟩ ⟨[]⟩ (Or.inl rfl)

/-! ## Claim C8 -/

/-- The frame written to a given table by `ingest_glue_tables`
(empty when the function raised). -/
def glueInsert (e : Except PyErr (List (String × DF))) (t : String) : DF :=
  match e with
  | Except.ok l => tableInsert l t
  | Except.error _ => []

/-- The `plants_output` sheet for the C8 counterexample: the EIA plant name
carries leading/trailing whitespace. -/
def plantMapC8 : DF :=
  [[("plant_id", Val.s "1"), ("plant_name", Val.s "Foo"),
    ("plant_id_eia923", Val.s "2"), ("plant_name_eia923", Val.s " x y "),
    ("plant_name_ferc1", Val.s " foo "), ("respondent_id_ferc1", Val.s "3"),
    ("operator_id_eia923", Val.s "4")]]

/-- The `utilities_output` sheet for the C8 counterexample. -/
def utilityMapC8 : DF :=
  [[("utility_id", Val.s "1"), ("utility_name", Val.s "U"),
    ("respondent_id_ferc1", Val.s "3"), ("respondent_name_ferc1", Val.s "R"),
    ("operator_id_eia923", Val.s "4"), ("operator_name_eia923", Val.s "O")]]

/-- C8, counterexample: the glue loader inserts a `plants_eia923` row whose
`plant_name` is the raw spreadsheet value " x y ", with leading and
trailing whitespace — only `plant_name_ferc1` is canonicalized, so the
claim that every glue-inserted `plant_name` is canonical is false. -/
theorem C8_counterexample :
    (glueInsert (ingest_glue_tables plantMapC8 utilityMapC8)
      "plants_eia923").any
      (fun r => Row.get r "plant_name" == some (Val.s " x y ")) = true
    ∧ stripCodes (codes " x y ") ≠ codes " x y " := by
  constructor
  · decide
  · decide

theorem Row.getD_set_self (r : Row) (c : String) (v : Val) :
    Row.getD (Row.set r c v) c = v := by
  unfold Row.getD
  rw [Row.get_set_self]
  rfl

theorem Row.getD_set_ne (r : Row) {c c' : String} (v : Val) (h : c ≠ c') :
    Row.getD (Row.set r c v) c' = Row.getD r c' := by
  unfold Row.getD
  rw [Row.get_set_ne r v h]

/-- Shared helper for C8: every row of the glue loader's `plants_ferc1`
frame carries a canonical `plant_name` (it went through
`str.strip` + `str.title` on `plant_name_ferc1`). -/
theorem glue_plants_ferc1_canonical :
    ∀ (plant_map utility_map : DF) (r : Row),
      r ∈ glueInsert (ingest_glue_tables plant_map utility_map)
          "plants_ferc1" →
        ∃ l : List Nat, Row.get r "plant_name" = some (Val.str l)
          ∧ canonicalCodes l := by
  intro pm um r hr
  cases hglue : ingest_glue_tables pm um with
  | error e =>
      rw [hglue] at hr
      simp [glueInsert] at hr
  | ok outs =>
      rw [hglue] at hr
      rw [ingest_glue_tables] at hglue
      split at hglue
      case isFalse => simp at hglue
      case isTrue hassert =>
          rw [Except.ok.injEq] at hglue
          rw [← hglue] at hr
          simp [glueInsert, tableInsert, List.lookup] at hr
          simp only [DF.renameCols, DF.dropna] at hr
          obtain ⟨r1, hr1, rfl⟩ := List.mem_map.mp hr
          obtain ⟨hmem1, hnn⟩ := List.mem_filter.mp hr1
          simp only [DF.dropDuplicates] at hmem1
          have hmem2 := DF.mem_dropDup hmem1
          simp only [DF.selectCols] at hmem2
          obtain ⟨r0', h0', rfl⟩ := List.mem_map.mp hmem2
          simp only [DF.mapCol] at h0'
          obtain ⟨r0'', h0'', rfl⟩ := List.mem_map.mp h0'
          obtain ⟨r0, h0, rfl⟩ := List.mem_map.mp h0''
          simp only [List.map_cons, List.map_nil] at hnn ⊢
          simp [Row.getD_set_self, Row.getD_set_ne] at hnn ⊢
          cases hv0 : Row.getD r0 "plant_name_ferc1" with
          | str l0 =>
              refine ⟨titleCodes (stripCodes l0), ?_, canonical_title_strip l0⟩
              simp [Row.rename, alookup, Row.get, Val.pyStrip, Val.pyTitle]
          | null =>
              rw [hv0] at hnn
              simp [Row.anyNull, Val.pyStrip, Val.pyTitle] at hnn
          | num q =>
              rw [hv0] at hnn
              simp [Row.anyNull, Val.pyStrip, Val.pyTitle] at hnn
          | bool b =>
              rw [hv0] at hnn
              simp [Row.anyNull, Val.pyStrip, Val.pyTitle] at hnn

/-- C8, amended: the FERC Form 1 fuel, steam, hydro and pumped-storage
transforms, and the glue loader's `plants_ferc1` frame, insert `plant_name`
as `title(strip(original))`, which is canonical (stripping and title-casing
it again change nothing); the glue loader's `plants_eia923` frame keeps the
spreadsheet value unchanged (see the counterexample). -/
theorem C8_amended :
    (∀ l : List Nat, canonicalCodes (titleCodes (stripCodes l)))
    ∧ (∀ (fs fus : List (List Nat × List Nat)) (ys : List ℚ)
        (sn rn rs rp rpd fu fuu : Val) (l : List Nat)
        (ri ry fq fah fcb fcd fcbtu fck fg : ℚ),
      Val.sqlNeEmpty fu = true → 0 < fq →
      Val.sqlNeEmpty (Val.str l) = true →
      Val.inYears ys (Val.num ry) = true →
      (cleanstrings fs Val.null fu == Val.null) = false →
      (cleanstrings fus Val.null fuu == Val.null) = false →
      Row.get ((ingest_fuel_ferc1 fs fus ys
        [f1FuelRow (Val.num ri) (Val.num ry) sn rn rs rp rpd (Val.str l) fu
          fuu (Val.num fq) (Val.num fah) (Val.num fcb) (Val.num fcd)
          (Val.num fcbtu) (Val.num fck) (Val.num fg)]).headD [])
        "plant_name" = some (Val.str (titleCodes (stripCodes l))))
    ∧ (∀ (tcs pks : List (List Nat × List Nat)) (ys : List ℚ)
        (sn rn rs rp rpd tc pk : Val) (l : List Nat)
        (ri ry yc yi tcap pd pcap wl wnl ae g cpk ek cpt eso ee tpe : ℚ),
      0 < g → Val.sqlNeEmpty (Val.str l) = true →
      Val.inYears ys (Val.num ry) = true →
      Row.get ((ingest_plants_steam_ferc1 tcs pks ys
        [f1SteamRow (Val.num ri) (Val.num ry) sn rn rs rp rpd (Val.str l) tc
          pk (Val.num yc) (Val.num yi) (Val.num tcap) (Val.num pd)
          (Val.num pcap) (Val.num wl) (Val.num wnl) (Val.num ae) (Val.num g)
          (Val.num cpk) (Val.num ek) (Val.num cpt) (Val.num eso) (Val.num ee)
          (Val.num tpe)]).headD [])
        "plant_name" = some (Val.str (titleCodes (stripCodes l))))
    ∧ (∀ (ys : List ℚ) (sn rn rs rp rpd : Val) (l : List Nat)
        (ri ry pj pc yc yi tcap pd ph fc ac ae cl g cpk ek ee et : ℚ),
      Val.sqlNeEmpty (Val.str l) = true →
      Val.inYears ys (Val.num ry) = true →
      Row.get ((ingest_plants_hydro_ferc1 ys
        [f1HydroRow (Val.num ri) (Val.num ry) sn rn rs rp rpd (Val.str l)
          (Val.num pj) (Val.num pc) (Val.num yc) (Val.num yi) (Val.num tcap)
          (Val.num pd) (Val.num ph) (Val.num fc) (Val.num ac) (Val.num ae)
          (Val.num cl) (Val.num g) (Val.num cpk) (Val.num ek) (Val.num ee)
          (Val.num et)]).headD [])
        "plant_name" = some (Val.str (titleCodes (stripCodes l))))
    ∧ (∀ (ys : List ℚ) (sn rn rs rp rpd : Val) (l : List Nat)
        (ri ry pj tcap pd ph pcap ae g eu nl cw ce cme cop cpk ewp eps emp
          empl epr tpe ek : ℚ),
      Val.sqlNeEmpty (Val.str l) = true →
      Val.inYears ys (Val.num ry) = true →
      Row.get ((ingest_plants_pumped_storage_ferc1 ys
        [f1PumpedStorageRow (Val.num ri) (Val.num ry) sn rn rs rp rpd
          (Val.str l) (Val.num pj) (Val.num tcap) (Val.num pd) (Val.num ph)
          (Val.num pcap) (Val.num ae) (Val.num g) (Val.num eu) (Val.num nl)
          (Val.num cw) (Val.num ce) (Val.num cme) (Val.num cop) (Val.num cpk)
          (Val.num ewp) (Val.num eps) (Val.num emp) (Val.num empl)
          (Val.num epr) (Val.num tpe) (Val.num ek)]).headD [])
        "plant_name" = some (Val.str (titleCodes (stripCodes l))))
    ∧ (∀ (plant_map utility_map : DF) (r : Row),
      r ∈ glueInsert (ingest_glue_tables plant_map utility_map)
          "plants_ferc1" →
        ∃ l : List Nat, Row.get r "plant_name" = some (Val.str l)
          ∧ canonicalCodes l) := by
  refine ⟨canonical_title_strip, ?_, ?_, ?_, ?_, ?_⟩
  · intro fs fus ys sn rn rs rp rpd fu fuu l ri ry fq fah fcb fcd fcbtu fck
      fg hfu hfq hl hry n4 n5
    have h := fuel_ferc1_row_eq fs fus ys (Val.num ri) (Val.num ry) sn rn rs
      rp rpd (Val.str l) fu fuu (Val.num fq) (Val.num fah) (Val.num fcb)
      (Val.num fcd) (Val.num fcbtu) (Val.num fck) (Val.num fg)
      hfu (by simp [Val.gtZero, hfq]) hl hry rfl rfl rfl n4 n5 rfl rfl rfl
      rfl rfl rfl rfl
    rw [h]
    simp [Row.get, List.headD, Val.pyStrip, Val.pyTitle]
  · intro tcs pks ys sn rn rs rp rpd tc pk l ri ry yc yi tcap pd pcap wl wnl
      ae g cpk ek cpt eso ee tpe hg hl hry
    have h := steam_row_eq tcs pks ys (Val.num ri) (Val.num ry) sn rn rs rp
      rpd (Val.str l) tc pk (Val.num yc) (Val.num yi) (Val.num tcap)
      (Val.num pd) (Val.num pcap) (Val.num wl) (Val.num wnl) (Val.num ae)
      (Val.num g) (Val.num cpk) (Val.num ek) (Val.num cpt) (Val.num eso)
      (Val.num ee) (Val.num tpe) (by simp [Val.gtZero, hg]) hl hry
    rw [h]
    simp [Row.get, List.headD, Val.pyStrip, Val.pyTitle]
  · intro ys sn rn rs rp rpd l ri ry pj pc yc yi tcap pd ph fc ac ae cl g cpk
      ek ee et hl hry
    have h := hydro_row_eq ys (Val.num ri) (Val.num ry) sn rn rs rp rpd
      (Val.str l) (Val.num pj) (Val.num pc) (Val.num yc) (Val.num yi)
      (Val.num tcap) (Val.num pd) (Val.num ph) (Val.num fc) (Val.num ac)
      (Val.num ae) (Val.num cl) (Val.num g) (Val.num cpk) (Val.num ek)
      (Val.num ee) (Val.num et) hl hry rfl rfl rfl rfl rfl rfl rfl rfl rfl
      rfl rfl rfl rfl rfl rfl rfl rfl rfl rfl
    rw [h]
    simp [Row.get, List.headD, Val.pyStrip, Val.pyTitle]
  · intro ys sn rn rs rp rpd l ri ry pj tcap pd ph pcap ae g eu nl cw ce cme
      cop cpk ewp eps emp empl epr tpe ek hl hry
    have h := pumped_storage_row_eq ys (Val.num ri) (Val.num ry) sn rn rs rp
      rpd (Val.str l) (Val.num pj) (Val.num tcap) (Val.num pd) (Val.num ph)
      (Val.num pcap) (Val.num ae) (Val.num g) (Val.num eu) (Val.num nl)
      (Val.num cw) (Val.num ce) (Val.num cme) (Val.num cop) (Val.num cpk)
      (Val.num ewp) (Val.num eps) (Val.num emp) (Val.num empl) (Val.num epr)
      (Val.num tpe) (Val.num ek) hl hry rfl rfl rfl rfl rfl rfl rfl rfl rfl
      rfl rfl rfl rfl rfl rfl rfl rfl rfl rfl rfl rfl rfl rfl rfl
    rw [h]
    simp [Row.get, List.headD, Val.pyStrip, Val.pyTitle]
  · exact glue_plants_ferc1_canonical

/-- Witness for C8, amended, at concrete rows whose raw plant name is
" foo " (canonicalized to "Foo"). -/
theorem C8_amended_witness :
    canonicalCodes (titleCodes (stripCodes (codes " foo ")))
    ∧ Row.get ((ingest_fuel_ferc1 [(codes "coal", codes "coal")]
        [(codes "tons", codes "ton")] [2015]
        [f1FuelRow (Val.num 1) (Val.num 2015) (Val.num 0) (Val.num 0)
          (Val.num 0) (Val.num 0) (Val.num 0) (Val.str (codes " foo "))
          (Val.s "coal") (Val.s "tons") (Val.num 10) (Val.num 1) (Val.num 1)
          (Val.num 1) (Val.num 1) (Val.num 1) (Val.num 1)]).headD [])
        "plant_name" = some (Val.str (titleCodes (stripCodes (codes " foo "))))
    ∧ Row.get ((ingest_plants_steam_ferc1 [] [] [2015]
        [f1SteamRow (Val.num 1) (Val.num 2015) (Val.num 0) (Val.num 0)
          (Val.num 0) (Val.num 0) (Val.num 0) (Val.str (codes " foo "))
          (Val.s "c") (Val.s "k") (Val.num 1950) (Val.num 1960) (Val.num 1)
          (Val.num 1) (Val.num 1) (Val.num 1) (Val.num 1) (Val.num 1)
          (Val.num 2000) (Val.num 3) (Val.num 7) (Val.num 1) (Val.num 1)
          (Val.num 1) (Val.num 1)]).headD [])
        "plant_name" = some (Val.str (titleCodes (stripCodes (codes " foo "))))
    ∧ Row.get ((ingest_plants_hydro_ferc1 [2015]
        [f1HydroRow (Val.num 1) (Val.num 2015) (Val.num 0) (Val.num 0)
          (Val.num 0) (Val.num 0) (Val.num 0) (Val.str (codes " foo "))
          (Val.num 7) (Val.num 2) (Val.num 1950) (Val.num 1960) (Val.num 1)
          (Val.num 1) (Val.num 1) (Val.num 1) (Val.num 1) (Val.num 1)
          (Val.num 1) (Val.num 2000) (Val.num 3) (Val.num 7) (Val.num 1)
          (Val.num 1)]).headD [])
        "plant_name" = some (Val.str (titleCodes (stripCodes (codes " foo "))))
    ∧ Row.get ((ingest_plants_pumped_storage_ferc1 [2015]
        [f1PumpedStorageRow (Val.num 1) (Val.num 2015) (Val.num 0) (Val.num 0)
          (Val.num 0) (Val.num 0) (Val.num 0) (Val.str (codes " foo "))
          (Val.num 7) (Val.num 1) (Val.num 1) (Val.num 1) (Val.num 1)
          (Val.num 1) (Val.num 2000) (Val.num 3) (Val.num 4) (Val.num 1)
          (Val.num 1) (Val.num 1) (Val.num 1) (Val.num 5) (Val.num 1)
          (Val.num 1) (Val.num 1) (Val.num 1) (Val.num 1) (Val.num 1)
          (Val.num 7)]).headD [])
        "plant_name" = some (Val.str (titleCodes (stripCodes (codes " foo "))))
    ∧ (∃ l : List Nat, Row.get [("plant_name", Val.s "Foo"),
        ("respondent_id", Val.s "3"), ("plant_id_pudl", Val.s "1")]
        "plant_name" = some (Val.str l) ∧ canonicalCodes l) := by
  refine ⟨C8_amended.1 (codes " foo "), ?_, ?_, ?_, ?_, ?_⟩
  · exact C8_amended.2.1 [(codes "coal", codes "coal")]
      [(codes "tons", codes "ton")] [2015] (Val.num 0) (Val.num 0)
      (Val.num 0) (Val.num 0) (Val.num 0) (Val.s "coal") (Val.s "tons")
      (codes " foo ") 1 2015 10 1 1 1 1 1 1 (by decide) (by norm_num)
      (by decide) (by norm_num [Val.inYears]) (by decide) (by decide)
  · exact C8_amended.2.2.1 [] [] [2015] (Val.num 0) (Val.num 0) (Val.num 0)
      (Val.num 0) (Val.num 0) (Val.s "c") (Val.s "k") (codes " foo ")
      1 2015 1950 1960 1 1 1 1 1 1 2000 3 7 1 1 1 1 (by norm_num)
      (by decide) (by norm_num [Val.inYears])
  · exact C8_amended.2.2.2.1 [2015] (Val.num 0) (Val.num 0) (Val.num 0)
      (Val.num 0) (Val.num 0) (codes " foo ") 1 2015 7 2 1950 1960 1 1 1 1 1
      1 1 2000 3 7 1 1 (by decide) (by norm_num [Val.inYears])
  · exact C8_amended.2.2.2.2.1 [2015] (Val.num 0) (Val.num 0) (Val.num 0)
      (Val.num 0) (Val.num 0) (codes " foo ") 1 2015 7 1 1 1 1 1 2000 3 4 1
      1 1 1 5 1 1 1 1 1 1 7 (by decide) (by norm_num [Val.inYears])
  · exact C8_amended.2.2.2.2.2 plantMapC8 utilityMapC8
      [("plant_name", Val.s "Foo"), ("respondent_id", Val.s "3"),
       ("plant_id_pudl", Val.s "1")] (by decide)

end Pudl
